import Mathlib

/-!
Verification development for the webverse comic pipeline
(`src/agentuity/agentuity_agents/{writer,illustrator,image_generator,director}/agent.py`).

The Python payloads are JSON-like values, embedded as the inductive `Value`.
Python dicts (as produced by `json.loads`) have string keys and insertion
order, embedded as association lists with in-place overwrite (`dictSet`).
Python's global `random` module is embedded as an explicit state `GState`
`(seedValue, drawCount)` together with an environment `Rb` giving the value of
the k-th bounded draw after `random.seed(s)`; `random.seed` resets the state.
String operations are re-implemented over `List Char` (structural recursion,
so they evaluate inside the kernel); `json.loads`/`json.JSONDecodeError` and
the transport layer are abstraction boundaries, passed in as parameters.
-/

/-- JSON-like Python value (output of `json.loads`, and the payload values the
agents build). Dicts keep insertion order, keys are strings. -/
inductive Value where
  | null
  | bool (b : Bool)
  | int (n : Int)
  | str (s : String)
  | list (xs : List Value)
  | dict (kvs : List (String × Value))

/-- Python truthiness: `None`, `False`, `0`, `""`, `[]`, `{}` are falsy. -/
def pyTruthy : Value → Bool
  | .null => false
  | .bool b => b
  | .int n => n != 0
  | .str s => s != ""
  | .list xs => !xs.isEmpty
  | .dict kvs => !kvs.isEmpty

/-- Python `a or b` on values: `a` when truthy, else `b`. -/
def pyOr (a b : Value) : Value := if pyTruthy a then a else b

/-- `d.get(k)` on an association-list dict (first binding wins; `dictSet`
keeps keys unique). -/
def dictGet (kvs : List (String × Value)) (k : String) : Option Value :=
  match kvs with
  | [] => none
  | (k', v) :: rest => if k' = k then some v else dictGet rest k

/-- `d.get(k, default)`. -/
def dictGetD (kvs : List (String × Value)) (k : String) (dflt : Value) : Value :=
  (dictGet kvs k).getD dflt

/-- `d[k] = v`: overwrite in place when the key exists, else append. -/
def dictSet (kvs : List (String × Value)) (k : String) (v : Value) :
    List (String × Value) :=
  match kvs with
  | [] => [(k, v)]
  | (k', v') :: rest => if k' = k then (k', v) :: rest else (k', v') :: dictSet rest k v

/-- `d.update(other)`: assign `other`'s bindings in order. -/
def dictUpdate (kvs other : List (String × Value)) : List (String × Value) :=
  other.foldl (fun acc kv => dictSet acc kv.1 kv.2) kvs

/-- The whitespace characters Python's `str.strip()` removes (the ASCII ones;
the payloads contain no exotic Unicode whitespace). -/
def pySpace (c : Char) : Bool :=
  c = ' ' || c = '\t' || c = '\n' || c = '\r' || c = '\x0b' || c = '\x0c'

/-- Python `str.strip()`. -/
def pyStrip (s : String) : String :=
  String.mk (((s.data.dropWhile pySpace).reverse.dropWhile pySpace).reverse)

/-- Python `str.lower()`. -/
def pyLower (s : String) : String := String.mk (s.data.map Char.toLower)

/-- Python `str.upper()`. -/
def pyUpper (s : String) : String := String.mk (s.data.map Char.toUpper)

/-- Python `s[:n]` on a string. -/
def pyTake (s : String) (n : Nat) : String := String.mk (s.data.take n)

/-- One step of Python `str.replace` over char lists, fuelled so that the
recursion is structural (fuel bounds the number of characters consumed). -/
def pyReplaceAux (pat rep : List Char) : Nat → List Char → List Char
  | 0, l => l
  | _ + 1, [] => []
  | fuel + 1, c :: rest =>
    if pat.isPrefixOf (c :: rest) then
      rep ++ pyReplaceAux pat rep fuel ((c :: rest).drop pat.length)
    else
      c :: pyReplaceAux pat rep fuel rest

/-- Python `s.replace(pat, rep)` for a non-empty `pat` (every use site passes
a non-empty pattern). -/
def pyReplace (s pat rep : String) : String :=
  if pat.data.isEmpty then s
  else String.mk (pyReplaceAux pat.data rep.data s.data.length s.data)

/-- Substring search over char lists. -/
def containsAux (pat : List Char) : List Char → Bool
  | [] => pat.isEmpty
  | c :: rest => pat.isPrefixOf (c :: rest) || containsAux pat rest

/-- Python `sub in s` (substring test). -/
def pyContains (s sub : String) : Bool := containsAux sub.data s.data

/-- Python `str.title()`: first letter of each alphanumeric run upper-cased,
the rest lower-cased. -/
def pyTitleAux : Bool → List Char → List Char
  | _, [] => []
  | prevAlpha, c :: rest =>
    if c.isAlpha then
      (if prevAlpha then c.toLower else c.toUpper) :: pyTitleAux true rest
    else
      c :: pyTitleAux false rest

/-- Python `str.title()`. -/
def pyTitle (s : String) : String := String.mk (pyTitleAux false s.data)

/-- `sep.join(parts)`. -/
def joinWith (sep : String) : List String → String
  | [] => ""
  | [x] => x
  | x :: rest => x ++ sep ++ joinWith sep rest

/-- Python `int(x)` on a JSON value, `none` when it raises:
ints pass through, booleans become 0/1, numeric strings parse. -/
def pyToInt : Value → Option Int
  | .int n => some n
  | .bool b => some (if b then 1 else 0)
  | .str s => (pyStrip s).toInt?
  | _ => none

/-- Structural size of a `Value` (used as recursion fuel for the renderers
below; it always dominates the nesting depth). -/
def vsize : Value → Nat
  | .null => 1
  | .bool _ => 1
  | .int _ => 1
  | .str _ => 1
  | .list xs => 1 + (xs.attach.map (fun a => vsize a.1)).sum
  | .dict kvs => 1 + (kvs.attach.map (fun a => vsize a.1.2)).sum
  termination_by v => sizeOf v
  decreasing_by
  · have h := List.sizeOf_lt_of_mem a.2
    simp only [Value.list.sizeOf_spec]
    omega
  · rcases a with ⟨⟨k, v⟩, hm⟩
    have h := List.sizeOf_lt_of_mem hm
    simp only [Prod.mk.sizeOf_spec] at h
    simp only [Value.dict.sizeOf_spec]
    omega

/-- Fuelled rendering of Python `repr()` (fuel bounds the nesting depth;
`pyStr` supplies `vsize`, which always suffices). Containers render like
Python reprs; the claims never depend on the repr of a container, only on
leaf values, where this agrees with Python exactly. -/
def pyReprAux : Nat → Value → String
  | 0, _ => ""
  | _ + 1, .null => "None"
  | _ + 1, .bool true => "True"
  | _ + 1, .bool false => "False"
  | _ + 1, .int n => toString n
  | _ + 1, .str s => "'" ++ s ++ "'"
  | fuel + 1, .list xs => "[" ++ joinWith ", " (xs.map (pyReprAux fuel)) ++ "]"
  | fuel + 1, .dict kvs =>
      "\x7b" ++
        joinWith ", " (kvs.map (fun kv => "'" ++ kv.1 ++ "': " ++ pyReprAux fuel kv.2)) ++
        "\x7d"

/-- Python `str(v)`: identical to `repr(v)` except on strings, which pass
through unquoted. -/
def pyStr (v : Value) : String :=
  match v with
  | .null => "None"
  | .bool true => "True"
  | .bool false => "False"
  | .int n => toString n
  | .str s => s
  | v => pyReprAux (vsize v) v

/-- One character of the JSON string escaping `json.dumps` applies. -/
def jsonEscapeChar (c : Char) : String :=
  if c = '"' then "\\\""
  else if c = '\\' then "\\\\"
  else if c = '\n' then "\\n"
  else if c = '\r' then "\\r"
  else if c = '\t' then "\\t"
  else String.mk [c]

/-- `json.dumps` of a string (with `ensure_ascii=False`). -/
def jsonEscape (s : String) : String :=
  "\"" ++ joinWith "" (s.data.map jsonEscapeChar) ++ "\""

/-- Fuelled `json.dumps(v, ensure_ascii=False, separators=(",", ":"))`. -/
def pyJsonDumpsAux : Nat → Value → String
  | 0, _ => ""
  | _ + 1, .null => "null"
  | _ + 1, .bool true => "true"
  | _ + 1, .bool false => "false"
  | _ + 1, .int n => toString n
  | _ + 1, .str s => jsonEscape s
  | fuel + 1, .list xs => "[" ++ joinWith "," (xs.map (pyJsonDumpsAux fuel)) ++ "]"
  | fuel + 1, .dict kvs =>
      "\x7b" ++
        joinWith "," (kvs.map (fun kv => jsonEscape kv.1 ++ ":" ++ pyJsonDumpsAux fuel kv.2)) ++
        "\x7d"

/-- `json.dumps(v, ensure_ascii=False, separators=(",", ":"))`. -/
def pyJsonDumps (v : Value) : String := pyJsonDumpsAux (vsize v) v

/-! ## The global `random` module -/

/-- Draw environment: `rb s k n` is the value CPython's `random._randbelow(n)`
returns on the k-th bounded draw after `random.seed(s)`. The embedding reduces
it modulo `n`, which is the library's contract (`_randbelow(n) < n`); beyond
that the stream is arbitrary, so every theorem quantified over `Rb` holds for
the real Mersenne Twister stream. -/
abbrev Rb := Nat → Nat → Nat → Nat

/-- Global `random` state: the seed value last passed to `random.seed` and
the number of bounded draws consumed since. -/
abbrev GState := Nat × Nat

/-- `random.seed(s)`: resets the global state. -/
def pySeed (s : Nat) : GState := (s, 0)

/-- `random._randbelow(n)`: one bounded draw, advancing the state. -/
def randbelow (rb : Rb) (g : GState) (n : Nat) : Nat × GState :=
  (rb g.1 g.2 n % n, (g.1, g.2 + 1))

/-- `random.choice(l)` for a non-empty list of strings. -/
def pyChoice (rb : Rb) (g : GState) (l : List String) : String × GState :=
  ((l.getD (randbelow rb g l.length).1 ""), (randbelow rb g l.length).2)

/-- `random.randrange(lo, hi)`. -/
def pyRandrange (rb : Rb) (g : GState) (lo hi : Nat) : Nat × GState :=
  (lo + (randbelow rb g (hi - lo)).1, (randbelow rb g (hi - lo)).2)

/-- `x[i], x[j] = x[j], x[i]` (identity when an index is out of range;
`pyShuffle` only ever swaps in range). -/
def listSwap {α : Type} (l : List α) (i j : Nat) : List α :=
  match l.get? i, l.get? j with
  | some a, some b => (l.set i b).set j a
  | _, _ => l

/-- The swaps of `random.shuffle` for the index list `is`. -/
def shuffleSteps {α : Type} (rb : Rb) : GState → List α → List Nat → List α × GState
  | g, l, [] => (l, g)
  | g, l, i :: rest =>
    shuffleSteps rb (randbelow rb g (i + 1)).2 (listSwap l i (randbelow rb g (i + 1)).1) rest

/-- `random.shuffle(l)`: Fisher-Yates over `i = len-1, …, 1`. -/
def pyShuffle {α : Type} (rb : Rb) (g : GState) (l : List α) : List α × GState :=
  shuffleSteps rb g l ((List.range l.length).drop 1).reverse

/-! ## Writer stage (`writer/agent.py`) -/

namespace Writer

def INTRO_INSTRUCTIONS : String :=
  "Start a brand-new Spider-Man adventure with a surprising inciting incident in New York City. Invent an original villain motivation or anomaly. End with a sharp cliffhanger that naturally leads into both choices."

def CONTINUATION_INSTRUCTIONS : String :=
  "Continue the serialized story using the provided history and the player's latest choice. Reference the most recent events, keep continuity tight, and escalate stakes. Close with a new cliffhanger."

def FALLBACK_VILLAINS : List String :=
  ["the Lizard", "Doctor Octopus", "Electro", "the Green Goblin", "Mysterio",
   "the Vulture"]

def FALLBACK_LOCATIONS : List String :=
  ["Times Square", "the Brooklyn Bridge", "Queens rooftops",
   "a S.H.I.E.L.D. safehouse in Hell's Kitchen", "Grand Central Terminal",
   "the New York Public Library"]

def FALLBACK_COMPLICATIONS : List String :=
  ["a collapsing hovercraft", "an unstable quantum rift",
   "civilians caught in a gravity storm", "a swarm of rogue spider-bots",
   "an EMP pulse knocking out city power",
   "dimensional echoes tearing open the sky"]

/-- `_normalize_dialogues`: extraction pass over a dict value
(`for character, line in value.items()`). -/
def dialoguesFromDict (kvs : List (String × Value)) : List (String × String) :=
  kvs.filterMap (fun kv =>
    let lineText := pyStrip (pyStr kv.2)
    if lineText = "" then none
    else some (if pyStrip kv.1 = "" then "Narrator" else pyStrip kv.1, lineText))

/-- `_normalize_dialogues`: extraction pass over a list value. -/
def dialoguesFromList (xs : List Value) : List (String × String) :=
  xs.filterMap (fun item =>
    match item with
    | .dict kvs =>
      let c1 := pyStr (dictGetD kvs "character" (.str ""))
      let c := if c1 = "" then pyStr (dictGetD kvs "speaker" (.str "")) else c1
      let line := pyStrip (pyStr (pyOr (dictGetD kvs "line" .null)
        (pyOr (dictGetD kvs "dialogue" .null)
          (pyOr (dictGetD kvs "text" .null) (.str "")))))
      if line = "" then none
      else some (if c = "" then "Narrator" else c, line)
    | .str s =>
      let line := pyStrip s
      if line = "" then none else some ("Narrator", line)
    | _ => none)

/-- `_normalize_dialogues(value)`: coerce any shape into 1-8 dialogue pairs,
substituting the fixed default pair when nothing usable is found. -/
def normalizeDialogues (value : Value) : List (String × String) :=
  let dialogues :=
    match value with
    | .dict kvs => dialoguesFromDict kvs
    | .list xs => dialoguesFromList xs
    | _ => []
  let dialogues :=
    if dialogues = [] then
      [("Spider-Man", "Guess it's another Tuesday in the Spider-Verse."),
       ("Narrator", "Our hero braces himself as chaos erupts around him.")]
    else dialogues
  dialogues.take 8

/-- `label.lower().replace(" ", "-").replace("'", "")`. -/
def slugify (label : String) : String :=
  pyReplace (pyReplace (pyLower label) " " "-") "'" ""

/-- `_normalize_choices`: the extraction loop over a list value. -/
def extractChoices (xs : List Value) : List (String × String) :=
  xs.filterMap (fun item =>
    match item with
    | .dict kvs =>
      let label := pyStrip (pyStr (pyOr (dictGetD kvs "label" .null)
        (pyOr (dictGetD kvs "text" .null)
          (pyOr (dictGetD kvs "choice" .null) (.str "")))))
      let cid0 := pyStrip (pyStr (pyOr (dictGetD kvs "id" .null)
        (pyOr (dictGetD kvs "slug" .null) (.str ""))))
      if label = "" then none
      else some (pyTake (if cid0 = "" then slugify label else cid0) 64, label)
    | .str s =>
      let label := pyStrip s
      if label = "" then none
      else some (pyTake (slugify label) 64, label)
    | _ => none)

/-- The fixed pool of fallback `(id, label)` pairs of `_normalize_choices`. -/
def fallbackPairs : List (String × String) :=
  [("swing-right-into-chaos", "Swing toward the source of the disturbance."),
   ("shadow-trail", "Stay hidden and trail the villain through the shadows."),
   ("shield-civilians", "Web up a barrier and protect the civilians first."),
   ("tech-diagnosis", "Scan the strange device with your suit's sensors.")]

/-- `while len(choices) < 2 and fallback_pairs: choices.append(fallback_pairs.pop())`,
with the pairs passed reversed so that `pop()` takes the head. -/
def popLoop : List (String × String) → List (String × String) → List (String × String)
  | choices, [] => choices
  | choices, p :: rest =>
    if choices.length < 2 then popLoop (choices ++ [p]) rest else choices

/-- `_normalize_choices` after the extraction loop: return the first two
usable entries, else seed the generator and draw from the shuffled pool. -/
def normChoicesCore (rb : Rb) (g : GState) (choices0 : List (String × String))
    (seed : Nat) : List (String × String) × GState :=
  if 2 ≤ choices0.length then (choices0.take 2, g)
  else
    let shuffled := (pyShuffle rb (pySeed seed) fallbackPairs).1
    ((popLoop choices0 shuffled.reverse).take 2, (pyShuffle rb (pySeed seed) fallbackPairs).2)

/-- The `choices` list after `_normalize_choices`' extraction loop
(non-lists contribute nothing). -/
def extractedOf (value : Value) : List (String × String) :=
  match value with
  | .list xs => extractChoices xs
  | _ => []

/-- `_normalize_choices(value, seed)`. -/
def normalizeChoices (rb : Rb) (g : GState) (value : Value) (seed : Nat) :
    List (String × String) × GState :=
  normChoicesCore rb g (extractedOf value) seed

/-- The three narrative fields `_fallback_story` synthesizes. -/
structure FbStory where
  story : String
  dialogues : List (String × String)
  choices : List (String × String)

/-- `_fallback_story(seed)`: seed the global generator, then draw villain,
location and complication (in that order). -/
def fallbackStory (rb : Rb) (_g : GState) (seed : Nat) : FbStory × GState :=
  let g0 := pySeed seed
  let villain := (pyChoice rb g0 FALLBACK_VILLAINS).1
  let g1 := (pyChoice rb g0 FALLBACK_VILLAINS).2
  let location := (pyChoice rb g1 FALLBACK_LOCATIONS).1
  let g2 := (pyChoice rb g1 FALLBACK_LOCATIONS).2
  let complication := (pyChoice rb g2 FALLBACK_COMPLICATIONS).1
  let g3 := (pyChoice rb g2 FALLBACK_COMPLICATIONS).2
  ({ story := "Spider-Man swings above " ++ location ++ " when he spots " ++
        villain ++ " orchestrating " ++ complication ++
        ". With sirens blaring below, Spidey cracks a joke to calm the nerves—even his own—before he dives into danger."
    , dialogues :=
        [("Spider-Man", "Okay, bad guy roll call—who ordered the reality meltdown combo?"),
         (pyTitle villain, "Spider-Man, you're just in time to watch New York unravel!")]
    , choices :=
        [("dive-straight-in", "Dive straight into the fray and confront the villain."),
         ("secure-civilians", "Secure the civilians before taking on the threat.")] }, g3)

def choiceToValue (p : String × String) : Value :=
  .dict [("id", .str p.1), ("label", .str p.2)]

def choicesToValue (l : List (String × String)) : Value := .list (l.map choiceToValue)

def dialogueToValue (p : String × String) : Value :=
  .dict [("character", .str p.1), ("line", .str p.2)]

def dialoguesToValue (l : List (String × String)) : Value := .list (l.map dialogueToValue)

/-- The dict `_fallback_story` returns. -/
def fbToDict (fb : FbStory) : List (String × Value) :=
  [("story", .str fb.story), ("dialogues", dialoguesToValue fb.dialogues),
   ("choices", choicesToValue fb.choices)]

end Writer

namespace Writer

/-- `_coerce_model_payload(raw_text, seed, context)`. The fence-stripping and
`json.loads` of `raw_text` are a library boundary, abstracted as the parse
outcome `po` (`none` = `json.loads` raised). A non-dict parse raises
`ValueError`, caught by the same handler, so it also falls back. -/
def coerceModelPayload (rb : Rb) (g : GState) (po : Option Value) (seed : Nat) :
    List (String × Value) × GState :=
  match po with
  | some (.dict kvs) =>
    let storyText := pyStrip (pyStr (dictGetD kvs "story" (.str "")))
    let kvs1 :=
      if storyText = "" then dictUpdate kvs (fbToDict (fallbackStory rb g seed).1)
      else kvs
    let storyVal := if storyText = "" then dictGetD kvs1 "story" .null else .str storyText
    let g1 := if storyText = "" then (fallbackStory rb g seed).2 else g
    let kvs2 := dictSet kvs1 "story" storyVal
    let kvs3 := dictSet kvs2 "dialogues"
      (dialoguesToValue (normalizeDialogues (dictGetD kvs2 "dialogues" .null)))
    let chs := (normalizeChoices rb g1 (dictGetD kvs3 "choices" .null) seed).1
    let g2 := (normalizeChoices rb g1 (dictGetD kvs3 "choices" .null) seed).2
    (dictSet kvs3 "choices" (choicesToValue chs), g2)
  | _ =>
    (fbToDict (fallbackStory rb g seed).1, (fallbackStory rb g seed).2)

/-- `none` ↦ `null`, `some n` ↦ the integer (for the optional page numbers
`_build_model_prompt` embeds). -/
def optIntToValue : Option Int → Value
  | none => .null
  | some n => .int n

/-- `_build_model_prompt(history, choice, prompt, previous_page, page_number)`. -/
def buildModelPrompt (history : List Value) (choice : Value) (prompt : String)
    (previousPage pageNumber : Option Int) : String :=
  let recentHistory := if history.isEmpty then [] else history.drop (history.length - 5)
  let contextPayload : Value := .dict
    [("recent_history", .list recentHistory), ("latest_choice", choice),
     ("previous_page", optIntToValue previousPage),
     ("page_number", optIntToValue pageNumber)]
  let contextJson := pyJsonDumps contextPayload
  prompt ++ "\n" ++
    "Use the JSON context below to maintain narrative continuity and respond with a payload that matches the schema." ++
    "\n" ++ "Context:" ++ contextJson

/-- What the writer's `run` produces: the prompt it sent to the model and the
JSON body it emits via `response.json`. -/
structure WriterOut where
  prompt : String
  body : List (String × Value)

/-- The `history` variable of `run`: `payload.get("history", [])`, reset to
`[]` when not a list. -/
def historyOf (payload : List (String × Value)) : List Value :=
  match dictGet payload "history" with
  | some (.list l) => l
  | _ => []

/-- The `choice` variable of `run`: `payload.get("choice", "")`, then
`str(choice)` unless it is `None`. -/
def choiceOf (payload : List (String × Value)) : Value :=
  match dictGet payload "choice" with
  | none => .str ""
  | some .null => .null
  | some v => .str (pyStr v)

/-- The `previous_page` variable of `run`: `int(history[-1].get("page"))`
when that neither is `None` nor raises, else `None`. -/
def previousPageOf (history : List Value) : Option Int :=
  if history.isEmpty then none
  else
    match history.getLast? with
    | some (.dict last) =>
      match dictGet last "page" with
      | none => none
      | some .null => none
      | some v => pyToInt v
    | _ => none

/-- The `page_payload` variable of the writer's `run`: the fallback story
when the model call raised, else the coerced model payload. -/
def pagePayloadOf (rb : Rb) (g : GState) (modelOutcome : Option (Option Value))
    (seed : Nat) : List (String × Value) :=
  match modelOutcome with
  | none => fbToDict (fallbackStory rb g seed).1
  | some po => (coerceModelPayload rb g po seed).1

/-- The writer's `run(request, response, context)`. Transport and model call
are capability parameters: `payload` is the dict `_extract_payload` produced,
`seed` the value `secrets.randbits(32)` drew, and `modelOutcome` the Gemini
call (`none` = the call raised; `some po` = it returned text whose cleaned
`json.loads` outcome is `po`). -/
def run (rb : Rb) (g : GState) (payload : List (String × Value))
    (modelOutcome : Option (Option Value)) (seed : Nat) : WriterOut :=
  let history := historyOf payload
  let choice := choiceOf payload
  let pageNumber : Int := (history.length : Int) + 1
  let prompt := if history.isEmpty then INTRO_INSTRUCTIONS else CONTINUATION_INSTRUCTIONS
  let previousPage := previousPageOf history
  let modelPrompt := buildModelPrompt history choice prompt previousPage (some pageNumber)
  let pagePayload := pagePayloadOf rb g modelOutcome seed
  let updatedHistory := history ++
    [Value.dict [("page", .int pageNumber), ("choice", choice),
                 ("story", dictGetD pagePayload "story" .null)]]
  let body0 := dictUpdate pagePayload
    [("page", .int pageNumber), ("history", .list updatedHistory),
     ("seed", .int (seed : Int))]
  let body := if pyTruthy choice then dictSet body0 "previous_choice" choice else body0
  { prompt := modelPrompt, body := body }

end Writer

/-! ## Illustrator stage (`illustrator/agent.py`) -/

namespace Illustrator

/-- One entry of a normalized `panel_layout`. -/
structure Panel where
  panel : Int
  description : String
  focus : String
deriving DecidableEq

def panelToValue (p : Panel) : Value :=
  .dict [("panel", .int p.panel), ("description", .str p.description),
         ("focus", .str p.focus)]

/-- One iteration of `_normalize_panel_layout`'s loop. -/
def panelStep (panels : List Panel) (entry : Value) : List Panel :=
  match entry with
  | .dict kvs =>
    let panelNumber :=
      match pyToInt (dictGetD kvs "panel" .null) with
      | some n => n
      | none => (panels.length : Int) + 1
    let description := pyStrip (pyStr (pyOr (dictGetD kvs "description" .null)
      (pyOr (dictGetD kvs "scene" .null) (.str ""))))
    let focus := pyStrip (pyStr (pyOr (dictGetD kvs "focus" .null)
      (pyOr (dictGetD kvs "characters" .null) (.str ""))))
    if description = "" then panels
    else panels ++ [⟨panelNumber, description,
      if focus = "" then "Spider-Man" else focus⟩]
  | .str s => panels ++ [⟨(panels.length : Int) + 1, pyStrip s, "Spider-Man"⟩]
  | _ => panels

/-- `_normalize_panel_layout(value)`: non-lists yield `[]`; dict entries are
kept only with a non-empty description; plain-string entries are kept
unconditionally; at most 5 panels. -/
def normalizePanelLayout (value : Value) : List Panel :=
  match value with
  | .list xs => (xs.foldl panelStep ([] : List Panel)).take 5
  | _ => []

/-- `re.split(r"(?<=[.!?])\s+", story)`: split at each maximal whitespace run
that directly follows `.`, `!` or `?` (fuelled; `pySentSplit` passes the
string's length, which always suffices). -/
def sentSplitAux : Nat → Char → List Char → List Char → List String
  | _, _, acc, [] => [String.mk acc.reverse]
  | 0, _, acc, l => [String.mk (acc.reverse ++ l)]
  | fuel + 1, prev, acc, c :: rest =>
    if pySpace c && (prev = '.' || prev = '!' || prev = '?') then
      String.mk acc.reverse :: sentSplitAux fuel ' ' [] (rest.dropWhile pySpace)
    else
      sentSplitAux fuel c (c :: acc) rest

/-- `re.split(r"(?<=[.!?])\s+", story)`. -/
def pySentSplit (s : String) : List String := sentSplitAux s.data.length ' ' [] s.data

def paletteChoices : List String :=
  ["vibrant reds, electric blues, neon greens",
   "noir shadows with crimson highlights",
   "sunset oranges with stormy purples"]

def lightingChoices : List String :=
  ["Dynamic rim lighting with sparks of energy",
   "Nocturnal city glow with reflective webs",
   "Backlit skyline with dramatic spotlight on Spider-Man"]

/-- The value `_fallback_illustration` passes to `random.seed`:
`page.get("seed", random.randrange(1, 10_000))`. The default draw happens
only when the key is absent. A present non-integer seed is hashed by
CPython's `random.seed`; that hash is a library boundary, modelled as 0
(no claim depends on a non-integer stored seed). -/
def seedArgOf (rb : Rb) (g : GState) (page : List (String × Value)) : Nat × GState :=
  match dictGet page "seed" with
  | none => pyRandrange rb g 1 10000
  | some (.int n) => (n.toNat, g)
  | some _ => (0, g)

/-- `enumerate(sentences[:3], start=1)` of `_fallback_illustration`, with the
panel construction folded in. -/
def enumPanels : Nat → List String → List Panel
  | _, [] => []
  | i, line :: rest =>
    Panel.mk (i : Int) line
      (if pyContains line "Spider" then "Spider-Man" else "Scene action") ::
      enumPanels (i + 1) rest

/-- `_fallback_illustration(page)`: seed from the page, split the story into
sentences, pad to at least 3, build up to 3 panels, then draw palette and
lighting (first and second draws after the seeding). -/
def fallbackIllustration (rb : Rb) (g : GState) (page : List (String × Value)) :
    List (String × Value) × GState :=
  let story := pyStr (pyOr (dictGetD page "story" .null)
    (.str "Spider-Man springs into action above Manhattan."))
  let sentences := (pySentSplit story).filterMap (fun seg =>
    let t := pyStrip seg
    if t = "" then none else some t)
  let seedv := (seedArgOf rb g page).1
  let g0 := pySeed seedv
  let sentences := if sentences.length < 3 then
      sentences ++ ["Spider-Man surveys the chaos below.",
                    "A looming threat crackles with energy."]
    else sentences
  let panels := enumPanels 1 (sentences.take 3)
  let palette := (pyChoice rb g0 paletteChoices).1
  let g1 := (pyChoice rb g0 paletteChoices).2
  let lighting := (pyChoice rb g1 lightingChoices).1
  let g2 := (pyChoice rb g1 lightingChoices).2
  ([("panel_layout", .list (panels.map panelToValue)),
    ("art_direction",
     .str "Lean into kinetic motion, tilted angles, and close-ups that heighten tension."),
    ("color_palette", .str palette),
    ("lighting", .str lighting),
    ("image_prompt",
     .str ("Comic book illustration of Spider-Man in action: " ++ pyTake story 220)),
    ("sound_effects", .list (["THWIP!", "KRAKOOM!", "VRRRMMM!"].map Value.str))], g2)

/-- The default sound effects of `_coerce_model_payload`. -/
def defaultSfx : List Value := [.str "THWIP!", .str "WHOOOSH!"]

/-- The `sound_effects` list `_coerce_model_payload` selects: the parsed list
when it is a non-empty list, else the defaults. -/
def sfxOf (o : Option Value) : List Value :=
  match o with
  | some (.list l) => if l.isEmpty then defaultSfx else l
  | _ => defaultSfx

/-- `_coerce_model_payload(raw_text, page, context)`: `po` abstracts the
cleaned `json.loads` outcome as in the writer; `fallback_cache` is threaded
so the fallback is synthesized at most once. -/
def coerceModelPayload (rb : Rb) (g : GState) (po : Option Value)
    (page : List (String × Value)) : List (String × Value) × GState :=
  match po with
  | some (.dict kvs) =>
    let parsedPanels := normalizePanelLayout (dictGetD kvs "panel_layout" .null)
    let fb0 := fallbackIllustration rb g page
    let panelsV :=
      if parsedPanels = [] then dictGetD fb0.1 "panel_layout" .null
      else Value.list (parsedPanels.map panelToValue)
    let g1 := if parsedPanels = [] then fb0.2 else g
    let kvs1 := dictSet kvs "panel_layout" panelsV
    let kvs2 := dictSet kvs1 "art_direction" (.str (pyStrip (pyStr
      (pyOr (dictGetD kvs1 "art_direction" .null)
        (.str "Cinematic motion with heroic staging.")))))
    let kvs3 := dictSet kvs2 "color_palette" (.str (pyStrip (pyStr
      (pyOr (dictGetD kvs2 "color_palette" .null)
        (.str "Rich reds and deep blues with energy highlights.")))))
    let kvs4 := dictSet kvs3 "lighting" (.str (pyStrip (pyStr
      (pyOr (dictGetD kvs3 "lighting" .null)
        (.str "High-contrast with streaked city lights.")))))
    let sfx := sfxOf (dictGet kvs4 "sound_effects")
    let kvs5 := dictSet kvs4 "sound_effects"
      (.list ((sfx.take 4).map (fun s => .str (pyTake (pyUpper (pyStr s)) 18))))
    -- `fallback_cache`: when the panels already forced a fallback, it is
    -- reused here; otherwise a fresh `_fallback_illustration(page)` runs from
    -- the current state, which is still `g`, so the substituted value is
    -- `fb0.1` either way and only the final generator state distinguishes
    -- the two paths.
    let kvs6 :=
      if pyTruthy (dictGetD kvs5 "image_prompt" .null) then kvs5
      else dictSet kvs5 "image_prompt" (dictGetD fb0.1 "image_prompt" .null)
    let g2 :=
      if pyTruthy (dictGetD kvs5 "image_prompt" .null) then g1
      else fb0.2
    (kvs6, g2)
  | _ => fallbackIllustration rb g page

/-- `(page.get("history") or [])[-3:]`. A Python slice of a truthy non-sequence
would raise `TypeError`; the embedding totalizes that unreachable-in-pipeline
case to `[]` (no claim exercises it). -/
def lastThree (v : Value) : Value :=
  match pyOr v (.list []) with
  | .list l => .list (l.drop (l.length - 3))
  | .str s => .str (String.mk (s.data.drop (s.data.length - 3)))
  | _ => .list []

/-- `_build_prompt(page)`. -/
def buildPrompt (page : List (String × Value)) : String :=
  let condensed : Value := .dict
    [("page", dictGetD page "page" .null),
     ("story", dictGetD page "story" .null),
     ("dialogues", dictGetD page "dialogues" .null),
     ("choices", dictGetD page "choices" .null),
     ("previous_choice", dictGetD page "previous_choice" .null),
     ("recent_history", lastThree (dictGetD page "history" .null))]
  "Context:" ++ pyJsonDumps condensed

/-- The illustrator's `run`: `page` is the dict `_extract_page_payload`
produced, `modelOutcome` the Gemini call as in the writer. Every return path
emits `{"page": page, "illustration": …}`. -/
def run (rb : Rb) (g : GState) (page : List (String × Value))
    (modelOutcome : Option (Option Value)) : Value :=
  if page.isEmpty then
    .dict [("page", .dict page),
           ("illustration", .dict (fallbackIllustration rb g []).1)]
  else
    let ill :=
      match modelOutcome with
      | none => (fallbackIllustration rb g page).1
      | some po => (coerceModelPayload rb g po page).1
    .dict [("page", .dict page), ("illustration", .dict ill)]

end Illustrator

/-! ## Image stage (`image_generator/agent.py`) -/

namespace ImageGen

/-- The runtime type of an `inline_data.data` attribute: bytes, text, or
something else (`_to_bytes` returns `None` for anything else). -/
inductive PyData where
  | bytes (b : List Nat)
  | str (s : String)
  | other

/-- An `inline_data` attribute value: its `data` and `mime_type` attributes
(`none` = attribute absent or `None`). -/
structure InlineData where
  data : Option PyData
  mimeType : Option String

/-- A response `part` as `_extract_image_from_response` probes it: its
`inline_data`, `data` and `image` attributes (`none` = absent). -/
inductive PartObj where
  | mk : Option InlineData → Option PartObj → Option PartObj → PartObj

def PartObj.inlineData : PartObj → Option InlineData
  | .mk i _ _ => i

def PartObj.dataAttr : PartObj → Option PartObj
  | .mk _ d _ => d

def PartObj.imageAttr : PartObj → Option PartObj
  | .mk _ _ im => im

/-- A `content` attribute: its `parts` (`none` = absent or `None`). -/
structure ContentObj where
  parts : Option (List PartObj)

/-- A response candidate: its `content` attribute. -/
structure Candidate where
  content : Option ContentObj

/-- A `generate_content` response as the extraction probes it. -/
structure GResult where
  candidates : Option (List Candidate)
  content : Option ContentObj

/-- `base64.b64decode` of the fixed 1×1 placeholder PNG (`FALLBACK_PIXEL`). -/
def FALLBACK_PIXEL : List Nat :=
  [137, 80, 78, 71, 13, 10, 26, 10, 0, 0, 0, 13, 73, 72, 68, 82, 0, 0, 0, 1,
   0, 0, 0, 1, 8, 6, 0, 0, 0, 31, 21, 196, 137, 0, 0, 0, 13, 73, 68, 65, 84,
   120, 156, 99, 0, 1, 0, 0, 5, 0, 1, 13, 10, 45, 180, 0, 0, 0, 0, 73, 69,
   78, 68, 174, 66, 96, 130]

def IMAGE_MODEL_NAME : String := "gemini-2.5-flash-image"

/-- `_to_bytes(value)`: bytes pass through; strings go through
`base64.b64decode` (`bd`, `none` = it raised) with `str.encode("utf-8")`
(`enc`) as the fallback; anything else yields `None`. -/
def toBytes (bd : String → Option (List Nat)) (enc : String → List Nat) :
    PyData → Option (List Nat)
  | .bytes b => some b
  | .str s =>
    match bd s with
    | some b => some b
    | none => some (enc s)
  | .other => none

/-- `_from_inline_data(part)`. -/
def fromInlineData (bd : String → Option (List Nat)) (enc : String → List Nat)
    (p : PartObj) : Option (List Nat × String) :=
  match p.inlineData with
  | none => none
  | some inline =>
    match inline.data with
    | none => none
    | some dataVal =>
      let mime :=
        match inline.mimeType with
        | some m => if m = "" then "image/png" else m
        | none => "image/png"
      match toBytes bd enc dataVal with
      | some b => if b.isEmpty then none else some (b, mime)
      | none => none

/-- One part of the candidate loop: the direct shape, then the `data`
wrapper (guarded by `hasattr(part.data, "data")`), then the `image`
wrapper, in priority order. -/
def searchPart (bd : String → Option (List Nat)) (enc : String → List Nat)
    (p : PartObj) : Option (List Nat × String) :=
  match fromInlineData bd enc p with
  | some r => some r
  | none =>
    let second :=
      match p.dataAttr with
      | some q => if q.dataAttr.isSome then fromInlineData bd enc q else none
      | none => none
    match second with
    | some r => some r
    | none =>
      match p.imageAttr with
      | some q => fromInlineData bd enc q
      | none => none

def searchParts (bd : String → Option (List Nat)) (enc : String → List Nat) :
    List PartObj → Option (List Nat × String)
  | [] => none
  | p :: rest =>
    match searchPart bd enc p with
    | some r => some r
    | none => searchParts bd enc rest

def searchCandidates (bd : String → Option (List Nat)) (enc : String → List Nat) :
    List Candidate → Option (List Nat × String)
  | [] => none
  | c :: rest =>
    let parts := match c.content with | some co => co.parts.getD [] | none => []
    match searchParts bd enc parts with
    | some r => some r
    | none => searchCandidates bd enc rest

/-- The top-level `result.content` sweep (direct shape only). -/
def searchTopParts (bd : String → Option (List Nat)) (enc : String → List Nat) :
    List PartObj → Option (List Nat × String)
  | [] => none
  | p :: rest =>
    match fromInlineData bd enc p with
    | some r => some r
    | none => searchTopParts bd enc rest

/-- The whole extraction sweep of `_extract_image_from_response`;
`none` means no inline binary was found anywhere. -/
def extractSearch (bd : String → Option (List Nat)) (enc : String → List Nat)
    (result : GResult) : Option (List Nat × String) :=
  match searchCandidates bd enc (result.candidates.getD []) with
  | some r => some r
  | none =>
    match result.content with
    | some co => searchTopParts bd enc (co.parts.getD [])
    | none => none

/-- `_extract_image_from_response(result, context)`. -/
def extractImageFromResponse (bd : String → Option (List Nat))
    (enc : String → List Nat) (result : GResult) : List Nat × String :=
  (extractSearch bd enc result).getD (FALLBACK_PIXEL, "image/png")

/-- `_sanitize_metadata(metadata)`. -/
def sanitizeMetadata : List (String × Value) → List (String × String)
  | [] => []
  | (k, v) :: rest =>
    match v with
    | .null => sanitizeMetadata rest
    | v =>
      let s :=
        match v with
        | .dict _ => pyJsonDumps v
        | .list _ => pyJsonDumps v
        | _ => pyStr v
      let s := pyStrip (pyReplace (pyReplace s "\r" " ") "\n" " ")
      if s = "" then sanitizeMetadata rest else (k, s) :: sanitizeMetadata rest

/-- The panel lines of `_compose_prompt`. -/
def panelLines (entries : List Value) : List String :=
  (entries.take 5).foldl (fun panels entry =>
    match entry with
    | .dict kvs =>
      let panelNumber := pyOr (dictGetD kvs "panel" .null)
        (.int ((panels.length : Int) + 1))
      let description := pyStrip (pyStr (pyOr (dictGetD kvs "description" .null) (.str "")))
      let focus := pyStrip (pyStr (pyOr (dictGetD kvs "focus" .null) (.str "")))
      if description = "" then panels
      else panels ++ ["Panel " ++ pyStr panelNumber ++ ": " ++ description ++
        " (focus: " ++ (if focus = "" then "Spider-Man" else focus) ++ ")"]
    | .str s =>
      if pyStrip s = "" then panels
      else panels ++ ["Panel " ++ toString (panels.length + 1) ++ ": " ++ pyStrip s]
    | _ => panels) ([] : List String)

/-- The choice labels of `_compose_prompt`. -/
def choiceLabels (cs : List Value) : List String :=
  (cs.take 2).foldl (fun acc choice =>
    match choice with
    | .dict kvs =>
      let label := pyStrip (pyStr (pyOr (dictGetD kvs "label" .null) (.str "")))
      if label = "" then acc else acc ++ [label]
    | .str s => if pyStrip s = "" then acc else acc ++ [pyStrip s]
    | _ => acc) ([] : List String)

/-- `_compose_prompt(page, illustration)`. -/
def composePrompt (page illustration : List (String × Value)) : String :=
  let story := pyStrip (pyStr (pyOr (dictGetD page "story" .null)
    (.str "Spider-Man faces an unexpected threat in New York City.")))
  let artDirection := pyStrip (pyStr (pyOr (dictGetD illustration "art_direction" .null)
    (.str "Dynamic comic book action from Spider-Man's perspective.")))
  let colorPalette := pyStrip (pyStr (pyOr (dictGetD illustration "color_palette" .null)
    (.str "Bold reds and blues with high-contrast highlights.")))
  let lighting := pyStrip (pyStr (pyOr (dictGetD illustration "lighting" .null)
    (.str "City twilight glow with dramatic shadows.")))
  let imagePrompt := pyStrip (pyStr (pyOr (dictGetD illustration "image_prompt" .null)
    (.str "Spider-Man swings through Manhattan as energy crackles around him.")))
  let panelsText :=
    match pyOr (dictGetD illustration "panel_layout" .null) (.list []) with
    | .list entries => joinWith "\n" (panelLines entries)
    | _ => ""
  let choiceSummary :=
    match pyOr (dictGetD page "choices" .null) (dictGetD illustration "choices" .null) with
    | .list cs =>
      if cs.isEmpty then ""
      else
        let formatted := choiceLabels cs
        if formatted.isEmpty then ""
        else "Choices presented: " ++ joinWith " | " formatted
    | _ => ""
  let promptSections :=
    ["Spider-Man comic page concept art.",
     "Story beat: " ++ story,
     "Art direction: " ++ artDirection,
     "Color palette: " ++ colorPalette,
     "Lighting: " ++ lighting,
     "Primary focus: " ++ imagePrompt] ++
    (if panelsText ≠ "" then ["Panel breakdown:\n" ++ panelsText] else []) ++
    (if choiceSummary ≠ "" then [choiceSummary] else []) ++
    ["Style: dynamic Marvel comic illustration, crisp inks, expressive action, cinematic perspective."]
  joinWith "\n" (promptSections.filter (fun s => s ≠ ""))

/-- What the image stage's `run` emits: the MIME type chosen for the binary
response, the image bytes, and the sanitized metadata. -/
structure ImageOut where
  mime : String
  bytes : List Nat
  metadata : List (String × String)

/-- The image stage's `run`: `payload` is the extracted dict, `modelOutcome`
the rendering call (`.error e` = it raised with message `e`), `bd`/`enc` the
base64/utf-8 library boundary of `_to_bytes`. -/
def run (payload : List (String × Value)) (modelOutcome : Except String GResult)
    (bd : String → Option (List Nat)) (enc : String → List Nat) : ImageOut :=
  let page := match dictGet payload "page" with | some (.dict kvs) => kvs | _ => payload
  let illustration :=
    match dictGet payload "illustration" with | some (.dict kvs) => kvs | _ => []
  let prompt := composePrompt page illustration
  match modelOutcome with
  | .error e =>
    { mime := "image/png", bytes := FALLBACK_PIXEL
      , metadata := sanitizeMetadata
          [("error", .str e), ("prompt", .str prompt), ("fallback", .bool true),
           ("page", .dict page), ("illustration", .dict illustration)] }
  | .ok result =>
    let imageBytes := (extractImageFromResponse bd enc result).1
    let mimeType := (extractImageFromResponse bd enc result).2
    let safeMetadata := sanitizeMetadata
      [("prompt", .str prompt), ("model", .str IMAGE_MODEL_NAME),
       ("page", .dict page), ("illustration", .dict illustration),
       ("fallback", .bool (imageBytes == FALLBACK_PIXEL))]
    if mimeType = "image/png" then ⟨"image/png", imageBytes, safeMetadata⟩
    else if mimeType = "image/jpeg" then ⟨"image/jpeg", imageBytes, safeMetadata⟩
    else if mimeType = "image/webp" then ⟨"image/webp", imageBytes, safeMetadata⟩
    else ⟨"image/png", imageBytes, safeMetadata⟩

end ImageGen

/-! ## Director (`director/agent.py`) -/

namespace Director

/-- The three named-stage invocations, each the composite of `_invoke_agent`
and `_serialize_agent_response` (`.error e` = that composite raised with
message `e`; `.ok d` = the serialized `{agent, content_type, metadata, body}`
dict). -/
structure StageCalls where
  writerCall : List (String × Value) → Except String (List (String × Value))
  illustratorCall : List (String × Value) → Except String (List (String × Value))
  imageCall : List (String × Value) → Except String (List (String × Value))

/-- The director's `run`: `payload` is the extracted inbound dict. -/
def run (payload : List (String × Value)) (sc : StageCalls) : Value :=
  match sc.writerCall payload with
  | .error e => .dict [("error", .str "writer_failed"), ("details", .str e)]
  | .ok writerResult =>
    match dictGet writerResult "body" with
    | some (.dict pagePayload) =>
      match sc.illustratorCall pagePayload with
      | .error e =>
        .dict [("error", .str "illustrator_failed"), ("details", .str e),
               ("writer", .dict writerResult)]
      | .ok illustratorResult =>
        match dictGet illustratorResult "body" with
        | some (.dict enrichedPayload) =>
          match sc.imageCall enrichedPayload with
          | .error e =>
            .dict [("error", .str "image_generator_failed"), ("details", .str e),
                   ("writer", .dict writerResult),
                   ("illustrator", .dict illustratorResult)]
          | .ok imageResult =>
            .dict [("writer", .dict writerResult),
                   ("illustrator", .dict illustratorResult),
                   ("image", .dict imageResult)]
        | _ =>
          .dict [("error", .str "illustrator_invalid_payload"),
                 ("details", .str "Illustrator agent must return a JSON object payload."),
                 ("writer", .dict writerResult),
                 ("illustrator", .dict illustratorResult)]
    | _ =>
      .dict [("error", .str "writer_invalid_payload"),
             ("details", .str "Writer agent must return a JSON object payload."),
             ("writer", .dict writerResult)]

end Director

/-! ## Dictionary lemmas -/

theorem dictGet_dictSet_self (kvs : List (String × Value)) (k : String) (v : Value) :
    dictGet (dictSet kvs k v) k = some v := by
  induction kvs with
  | nil => simp [dictSet, dictGet]
  | cons kv rest ih =>
    obtain ⟨k', v'⟩ := kv
    by_cases h : k' = k
    · simp [dictSet, dictGet, h]
    · simp [dictSet, dictGet, h, ih]

theorem dictGet_dictSet_ne (kvs : List (String × Value)) (k k₂ : String) (v : Value)
    (h : k₂ ≠ k) : dictGet (dictSet kvs k v) k₂ = dictGet kvs k₂ := by
  have h' : k ≠ k₂ := fun hh => h hh.symm
  induction kvs with
  | nil => simp [dictSet, dictGet, h']
  | cons kv rest ih =>
    obtain ⟨k', v'⟩ := kv
    by_cases hk : k' = k
    · subst hk
      simp [dictSet, dictGet, h']
    · by_cases hk2 : k' = k₂
      · subst hk2
        simp [dictSet, dictGet, h, hk]
      · simp [dictSet, dictGet, hk, hk2, ih]

/-! ## Shuffle and choice-pool lemmas -/

theorem listSwap_length {α : Type} (l : List α) (i j : Nat) :
    (listSwap l i j).length = l.length := by
  unfold listSwap
  split <;> simp

theorem mem_of_mem_listSwap {α : Type} {l : List α} {i j : Nat} {x : α}
    (h : x ∈ listSwap l i j) : x ∈ l := by
  unfold listSwap at h
  split at h
  case h_1 a b hga hgb =>
    rcases List.mem_or_eq_of_mem_set h with h' | rfl
    · rcases List.mem_or_eq_of_mem_set h' with h'' | rfl
      · exact h''
      · exact List.get?_mem hgb
    · exact List.get?_mem hga
  case h_2 => exact h

theorem shuffleSteps_length {α : Type} (rb : Rb) (is : List Nat) :
    ∀ (g : GState) (l : List α), ((shuffleSteps rb g l is).1).length = l.length := by
  induction is with
  | nil => intro g l; rfl
  | cons i rest ih =>
    intro g l
    simp only [shuffleSteps]
    rw [ih, listSwap_length]

theorem mem_of_mem_shuffleSteps {α : Type} (rb : Rb) (is : List Nat) :
    ∀ (g : GState) (l : List α) (x : α), x ∈ (shuffleSteps rb g l is).1 → x ∈ l := by
  induction is with
  | nil => intro g l x h; exact h
  | cons i rest ih =>
    intro g l x h
    simp only [shuffleSteps] at h
    exact mem_of_mem_listSwap (ih _ _ _ h)

theorem pyShuffle_length {α : Type} (rb : Rb) (g : GState) (l : List α) :
    ((pyShuffle rb g l).1).length = l.length := by
  unfold pyShuffle
  rw [shuffleSteps_length]

theorem mem_of_mem_pyShuffle {α : Type} {rb : Rb} {g : GState} {l : List α} {x : α}
    (h : x ∈ (pyShuffle rb g l).1) : x ∈ l :=
  mem_of_mem_shuffleSteps rb _ g l x h

theorem popLoop_length (pairs : List (String × String)) :
    ∀ choices : List (String × String), choices.length ≤ 2 →
      2 ≤ choices.length + pairs.length → (Writer.popLoop choices pairs).length = 2 := by
  induction pairs with
  | nil =>
    intro choices h1 h2
    simp only [List.length_nil] at h2
    simp only [Writer.popLoop]
    omega
  | cons p rest ih =>
    intro choices h1 h2
    simp only [List.length_cons] at h2
    simp only [Writer.popLoop]
    split
    · rename_i hlt
      have := ih (choices ++ [p]) (by simp; omega) (by simp; omega)
      simpa using this
    · rename_i hge
      omega

theorem mem_of_mem_popLoop (pairs : List (String × String)) :
    ∀ (choices : List (String × String)) (x : String × String),
      x ∈ Writer.popLoop choices pairs → x ∈ choices ∨ x ∈ pairs := by
  induction pairs with
  | nil => intro choices x h; exact Or.inl h
  | cons p rest ih =>
    intro choices x h
    simp only [Writer.popLoop] at h
    split at h
    · rcases ih _ _ h with h' | h'
      · rcases List.mem_append.mp h' with h'' | h''
        · exact Or.inl h''
        · exact Or.inr (by simpa using Or.inl (List.mem_singleton.mp h''))
      · exact Or.inr (List.mem_cons_of_mem _ h')
    · exact Or.inl h

theorem extractChoices_label_ne (xs : List Value) (p : String × String)
    (hp : p ∈ Writer.extractChoices xs) : p.2 ≠ "" := by
  rw [Writer.extractChoices, List.mem_filterMap] at hp
  obtain ⟨a, _, hf⟩ := hp
  cases a with
  | dict kvs =>
    simp only at hf
    split at hf
    · exact absurd hf (by simp)
    · rename_i hlabel
      obtain rfl := Option.some.inj hf
      exact hlabel
  | str s =>
    simp only at hf
    split at hf
    · exact absurd hf (by simp)
    · rename_i hlabel
      obtain rfl := Option.some.inj hf
      exact hlabel
  | null => exact absurd hf (by simp)
  | bool b => exact absurd hf (by simp)
  | int n => exact absurd hf (by simp)
  | list ys => exact absurd hf (by simp)

theorem fallbackPairs_label_ne (p : String × String) (hp : p ∈ Writer.fallbackPairs) :
    p.2 ≠ "" := by
  fin_cases hp <;> decide

theorem normChoicesCore_length (rb : Rb) (g : GState)
    (choices0 : List (String × String)) (seed : Nat) :
    ((Writer.normChoicesCore rb g choices0 seed).1).length = 2 := by
  unfold Writer.normChoicesCore
  split
  · rename_i h
    simp only [List.length_take]
    omega
  · rename_i h
    have hlen : ((pyShuffle rb (pySeed seed) Writer.fallbackPairs).1).length = 4 := by
      rw [pyShuffle_length]
      rfl
    have hpop := popLoop_length
      ((pyShuffle rb (pySeed seed) Writer.fallbackPairs).1).reverse choices0
      (by omega) (by rw [List.length_reverse, hlen]; omega)
    simp only [List.length_take, hpop]
    omega

theorem normChoicesCore_labels (rb : Rb) (g : GState)
    (choices0 : List (String × String)) (seed : Nat)
    (h0 : ∀ p ∈ choices0, p.2 ≠ "") :
    ∀ p ∈ (Writer.normChoicesCore rb g choices0 seed).1, p.2 ≠ "" := by
  intro p hp
  unfold Writer.normChoicesCore at hp
  split at hp
  · exact h0 p (List.mem_of_mem_take hp)
  · have hp' := List.mem_of_mem_take hp
    rcases mem_of_mem_popLoop _ _ _ hp' with h | h
    · exact h0 p h
    · exact fallbackPairs_label_ne p (mem_of_mem_pyShuffle (List.mem_reverse.mp h))

/-! ## C7: determinism of the fallback page synthesis -/

/-- C7: For every seed s (and any ambient global-generator state, which is
what varies between two invocations in one process), the fallback page
synthesis `_fallback_story` returns byte-identical output: `random.seed(seed)`
resets the generator, so the result is a deterministic function of the seed
alone, independent of the incoming state. -/
theorem fallbackStory_deterministic (rb : Rb) (g g' : GState) (seed : Nat) :
    Writer.fallbackStory rb g seed = Writer.fallbackStory rb g' seed := rfl

/-! ## C10: the illustrator's response shape -/

/-- C10: On every return path the illustrator's `run` emits a mapping with
exactly the two keys `page` and `illustration`, and the `page` value is the
extracted inbound payload passed through unchanged. -/
theorem illustrator_run_body_shape (rb : Rb) (g : GState)
    (page : List (String × Value)) (mo : Option (Option Value)) :
    ∃ ill : List (String × Value),
      Illustrator.run rb g page mo =
        .dict [("page", .dict page), ("illustration", .dict ill)] := by
  unfold Illustrator.run
  split
  · exact ⟨_, rfl⟩
  · cases mo with
    | none => exact ⟨_, rfl⟩
    | some po => exact ⟨_, rfl⟩

/-! ## C4: the Director keeps the writer's result when the illustrator call raises -/

/-- C4: When the writer stage succeeded with a mapping body and the
illustrator invocation itself raises, the Director returns the report
`{"error": "illustrator_failed", "details": …, "writer": …}`: the writer's
StageResult is kept, no illustrator or image entry is present, and the error
descriptor names the illustrator stage together with the failure details. -/
theorem director_illustrator_failure (payload : List (String × Value))
    (sc : Director.StageCalls) (writerResult pagePayload : List (String × Value))
    (err : String)
    (hw : sc.writerCall payload = .ok writerResult)
    (hbody : dictGet writerResult "body" = some (.dict pagePayload))
    (hi : sc.illustratorCall pagePayload = .error err) :
    Director.run payload sc =
      .dict [("error", .str "illustrator_failed"), ("details", .str err),
             ("writer", .dict writerResult)] ∧
    ∀ kvs, Director.run payload sc = .dict kvs →
      dictGet kvs "writer" = some (.dict writerResult) ∧
      dictGet kvs "illustrator" = none ∧
      dictGet kvs "image" = none ∧
      dictGet kvs "error" = some (.str "illustrator_failed") ∧
      dictGet kvs "details" = some (.str err) := by
  have hrun : Director.run payload sc =
      .dict [("error", .str "illustrator_failed"), ("details", .str err),
             ("writer", .dict writerResult)] := by
    simp only [Director.run, hw, hbody, hi]
  refine ⟨hrun, ?_⟩
  intro kvs hkvs
  rw [hrun] at hkvs
  obtain rfl : [("error", (.str "illustrator_failed" : Value)), ("details", .str err),
      ("writer", .dict writerResult)] = kvs := Value.dict.inj hkvs
  refine ⟨?_, ?_, ?_, ?_, ?_⟩ <;> simp [dictGet]

/-- Witness for C4 at a concrete stage-call environment: the writer responds
with body `{}`, the illustrator invocation raises `"boom"`. -/
theorem director_illustrator_failure_witness :
    Director.run []
      ⟨fun _ => .ok [("body", .dict [])], fun _ => .error "boom",
       fun _ => .ok []⟩ =
      .dict [("error", .str "illustrator_failed"), ("details", .str "boom"),
             ("writer", .dict [("body", .dict [])])] :=
  (director_illustrator_failure [] _ [("body", .dict [])] [] "boom" rfl rfl rfl).1

/-! ## C1: shape of the coerced choice pair -/

theorem extractedOf_label_ne (value : Value) (p : String × String)
    (hp : p ∈ Writer.extractedOf value) : p.2 ≠ "" := by
  cases value with
  | list xs => exact extractChoices_label_ne xs p hp
  | null => simp [Writer.extractedOf] at hp
  | bool b => simp [Writer.extractedOf] at hp
  | int n => simp [Writer.extractedOf] at hp
  | str s => simp [Writer.extractedOf] at hp
  | dict kvs => simp [Writer.extractedOf] at hp

theorem normalizeChoices_length (rb : Rb) (g : GState) (value : Value) (seed : Nat) :
    ((Writer.normalizeChoices rb g value seed).1).length = 2 :=
  normChoicesCore_length rb g _ seed

theorem popFallback_ids (j3 j2 j1 : Nat) (h3 : j3 < 4) (h2 : j2 < 3) (h1 : j1 < 2) :
    ((((Writer.popLoop []
        (listSwap (listSwap (listSwap Writer.fallbackPairs 3 j3) 2 j2) 1 j1).reverse).take 2).map
        Prod.fst).Nodup) ∧
    ∀ p ∈ (Writer.popLoop []
        (listSwap (listSwap (listSwap Writer.fallbackPairs 3 j3) 2 j2) 1 j1).reverse).take 2,
      p.1 ≠ "" ∧ p ∈ Writer.fallbackPairs := by
  interval_cases j3 <;> interval_cases j2 <;> interval_cases j1 <;> decide

/-- C1 counterexample: on the input list `["'", "''"]` (two usable labels
whose derived slugs are empty) with seed 0, `_normalize_choices` returns two
records whose `id`s are both empty — so "non-empty `id`" and "`id`s distinct
from each other" both fail as stated. -/
theorem normalizeChoices_id_counterexample :
    ¬ ((((Writer.normalizeChoices (fun _ _ _ => 0) (0, 0)
          (.list [.str "'", .str "''"]) 0).1.map Prod.fst).Nodup) ∧
       ∀ p ∈ (Writer.normalizeChoices (fun _ _ _ => 0) (0, 0)
          (.list [.str "'", .str "''"]) 0).1, p.1 ≠ "") := by
  decide

/-- C1 (amended): for every input value and 32-bit seed, the result of
`_normalize_choices` has exactly 2 records, each with a non-empty `label`;
and whenever the extraction loop found no usable input entry, both records
are drawn from the fixed fallback pool and then have distinct, non-empty
`id`s. (Records extracted from the input can carry empty or duplicate `id`s,
per the counterexample.) -/
theorem normalizeChoices_two_entries (rb : Rb) (g : GState) (value : Value) (seed : Nat) :
    ((Writer.normalizeChoices rb g value seed).1.length = 2 ∧
     ∀ p ∈ (Writer.normalizeChoices rb g value seed).1, p.2 ≠ "") ∧
    (Writer.extractedOf value = [] →
      (((Writer.normalizeChoices rb g value seed).1.map Prod.fst).Nodup ∧
       ∀ p ∈ (Writer.normalizeChoices rb g value seed).1,
         p.1 ≠ "" ∧ p ∈ Writer.fallbackPairs)) := by
  refine ⟨⟨normalizeChoices_length rb g value seed, ?_⟩, ?_⟩
  · exact normChoicesCore_labels rb g _ seed (extractedOf_label_ne value)
  · intro h
    have e : (Writer.normalizeChoices rb g value seed).1 =
        (Writer.popLoop []
          (listSwap (listSwap (listSwap Writer.fallbackPairs 3 (rb seed 0 4 % 4))
            2 (rb seed 1 3 % 3)) 1 (rb seed 2 2 % 2)).reverse).take 2 := by
      unfold Writer.normalizeChoices
      rw [h]
      rfl
    rw [e]
    exact popFallback_ids _ _ _ (Nat.mod_lt _ (by norm_num))
      (Nat.mod_lt _ (by norm_num)) (Nat.mod_lt _ (by norm_num))

/-! ## C3: the writer's page/history bookkeeping -/

theorem dictUpdate_three (kvs : List (String × Value)) (a b c : String)
    (va vb vc : Value) :
    dictUpdate kvs [(a, va), (b, vb), (c, vc)] =
      dictSet (dictSet (dictSet kvs a va) b vb) c vc := rfl

theorem dictUpdate_fb_story (kvs : List (String × Value)) (fb : Writer.FbStory) :
    dictGet (dictUpdate kvs (Writer.fbToDict fb)) "story" = some (.str fb.story) := by
  rw [show Writer.fbToDict fb =
    [("story", Value.str fb.story), ("dialogues", Writer.dialoguesToValue fb.dialogues),
     ("choices", Writer.choicesToValue fb.choices)] from rfl]
  rw [dictUpdate_three]
  rw [dictGet_dictSet_ne _ _ _ _ (by decide), dictGet_dictSet_ne _ _ _ _ (by decide),
    dictGet_dictSet_self]

theorem fbToDict_gets (rb : Rb) (g : GState) (seed : Nat) :
    dictGet (Writer.fbToDict (Writer.fallbackStory rb g seed).1) "story" =
      some (.str (Writer.fallbackStory rb g seed).1.story) ∧
    dictGet (Writer.fbToDict (Writer.fallbackStory rb g seed).1) "choices" =
      some (Writer.choicesToValue (Writer.fallbackStory rb g seed).1.choices) ∧
    (Writer.fallbackStory rb g seed).1.choices.length = 2 := by
  refine ⟨rfl, ?_, rfl⟩
  rw [show Writer.fbToDict (Writer.fallbackStory rb g seed).1 =
    [("story", Value.str (Writer.fallbackStory rb g seed).1.story),
     ("dialogues", Writer.dialoguesToValue (Writer.fallbackStory rb g seed).1.dialogues),
     ("choices", Writer.choicesToValue (Writer.fallbackStory rb g seed).1.choices)] from rfl]
  simp [dictGet]

theorem sets_gets_ex (base : List (String × Value)) (story : String) (dv : Value)
    (chs : List (String × String)) (hlen : chs.length = 2) :
    ∃ (st : String) (c : List (String × String)),
      dictGet (dictSet (dictSet (dictSet base "story" (.str story)) "dialogues" dv)
        "choices" (Writer.choicesToValue chs)) "story" = some (.str st) ∧
      dictGet (dictSet (dictSet (dictSet base "story" (.str story)) "dialogues" dv)
        "choices" (Writer.choicesToValue chs)) "choices" =
          some (Writer.choicesToValue c) ∧
      c.length = 2 := by
  refine ⟨story, chs, ?_, dictGet_dictSet_self _ _ _, hlen⟩
  rw [dictGet_dictSet_ne _ _ _ _ (by decide), dictGet_dictSet_ne _ _ _ _ (by decide),
    dictGet_dictSet_self]

theorem coerce_story_choices (rb : Rb) (g : GState) (po : Option Value) (seed : Nat) :
    ∃ (story : String) (chs : List (String × String)),
      dictGet (Writer.coerceModelPayload rb g po seed).1 "story" = some (.str story) ∧
      dictGet (Writer.coerceModelPayload rb g po seed).1 "choices" =
        some (Writer.choicesToValue chs) ∧
      chs.length = 2 := by
  have hfb := fbToDict_gets rb g seed
  match po with
  | none => exact ⟨_, _, hfb.1, hfb.2.1, hfb.2.2⟩
  | some .null => exact ⟨_, _, hfb.1, hfb.2.1, hfb.2.2⟩
  | some (.bool b) => exact ⟨_, _, hfb.1, hfb.2.1, hfb.2.2⟩
  | some (.int n) => exact ⟨_, _, hfb.1, hfb.2.1, hfb.2.2⟩
  | some (.str s) => exact ⟨_, _, hfb.1, hfb.2.1, hfb.2.2⟩
  | some (.list xs) => exact ⟨_, _, hfb.1, hfb.2.1, hfb.2.2⟩
  | some (.dict kvs) =>
    simp only [Writer.coerceModelPayload]
    by_cases hst : pyStrip (pyStr (dictGetD kvs "story" (.str ""))) = ""
    · simp only [hst, if_pos rfl, ite_true]
      have hsv : dictGetD (dictUpdate kvs
          (Writer.fbToDict (Writer.fallbackStory rb g seed).1)) "story" Value.null =
          .str (Writer.fallbackStory rb g seed).1.story := by
        unfold dictGetD
        rw [dictUpdate_fb_story]
        rfl
      rw [hsv]
      exact sets_gets_ex _ _ _ _ (normalizeChoices_length _ _ _ _)
    · simp only [hst, ite_false, if_neg hst]
      exact sets_gets_ex _ _ _ _ (normalizeChoices_length _ _ _ _)

theorem pagePayload_story_choices (rb : Rb) (g : GState)
    (mo : Option (Option Value)) (seed : Nat) :
    ∃ (story : String) (chs : List (String × String)),
      dictGet (Writer.pagePayloadOf rb g mo seed) "story" = some (.str story) ∧
      dictGet (Writer.pagePayloadOf rb g mo seed) "choices" =
        some (Writer.choicesToValue chs) ∧
      chs.length = 2 := by
  cases mo with
  | none =>
    have hfb := fbToDict_gets rb g seed
    exact ⟨_, _, hfb.1, hfb.2.1, hfb.2.2⟩
  | some po => exact coerce_story_choices rb g po seed

theorem writerRun_body_get (rb : Rb) (g : GState) (payload : List (String × Value))
    (mo : Option (Option Value)) (seed : Nat) (k : String)
    (h1 : k ≠ "previous_choice") (h2 : k ≠ "seed") (h3 : k ≠ "history")
    (h4 : k ≠ "page") :
    dictGet (Writer.run rb g payload mo seed).body k =
      dictGet (Writer.pagePayloadOf rb g mo seed) k := by
  simp only [Writer.run, dictUpdate_three]
  by_cases hch : pyTruthy (Writer.choiceOf payload)
  · rw [if_pos hch, dictGet_dictSet_ne _ _ _ _ h1, dictGet_dictSet_ne _ _ _ _ h2,
      dictGet_dictSet_ne _ _ _ _ h3, dictGet_dictSet_ne _ _ _ _ h4]
  · rw [if_neg hch, dictGet_dictSet_ne _ _ _ _ h2, dictGet_dictSet_ne _ _ _ _ h3,
      dictGet_dictSet_ne _ _ _ _ h4]

theorem writerRun_body_page (rb : Rb) (g : GState) (payload : List (String × Value))
    (mo : Option (Option Value)) (seed : Nat) :
    dictGet (Writer.run rb g payload mo seed).body "page" =
      some (.int (((Writer.historyOf payload).length : Int) + 1)) := by
  simp only [Writer.run, dictUpdate_three]
  by_cases hch : pyTruthy (Writer.choiceOf payload)
  · rw [if_pos hch, dictGet_dictSet_ne _ _ _ _ (by decide),
      dictGet_dictSet_ne _ _ _ _ (by decide), dictGet_dictSet_ne _ _ _ _ (by decide),
      dictGet_dictSet_self]
  · rw [if_neg hch, dictGet_dictSet_ne _ _ _ _ (by decide),
      dictGet_dictSet_ne _ _ _ _ (by decide), dictGet_dictSet_self]

theorem writerRun_body_history (rb : Rb) (g : GState) (payload : List (String × Value))
    (mo : Option (Option Value)) (seed : Nat) :
    dictGet (Writer.run rb g payload mo seed).body "history" =
      some (.list ((Writer.historyOf payload) ++
        [.dict [("page", .int (((Writer.historyOf payload).length : Int) + 1)),
                ("choice", Writer.choiceOf payload),
                ("story", dictGetD (Writer.pagePayloadOf rb g mo seed) "story"
                  Value.null)]])) := by
  simp only [Writer.run, dictUpdate_three]
  by_cases hch : pyTruthy (Writer.choiceOf payload)
  · rw [if_pos hch, dictGet_dictSet_ne _ _ _ _ (by decide),
      dictGet_dictSet_ne _ _ _ _ (by decide), dictGet_dictSet_self]
  · rw [if_neg hch, dictGet_dictSet_ne _ _ _ _ (by decide), dictGet_dictSet_self]

theorem writerRun_prompt (rb : Rb) (g : GState) (payload : List (String × Value))
    (mo : Option (Option Value)) (seed : Nat) :
    (Writer.run rb g payload mo seed).prompt =
      Writer.buildModelPrompt (Writer.historyOf payload) (Writer.choiceOf payload)
        (if (Writer.historyOf payload).isEmpty then Writer.INTRO_INSTRUCTIONS
         else Writer.CONTINUATION_INSTRUCTIONS)
        (Writer.previousPageOf (Writer.historyOf payload))
        (some (((Writer.historyOf payload).length : Int) + 1)) := rfl

theorem buildModelPrompt_prefix (h : List Value) (c : Value) (p : String)
    (pp pn : Option Int) :
    ∃ rest : String, Writer.buildModelPrompt h c p pp pn = p ++ rest := by
  refine ⟨"\n" ++
    ("Use the JSON context below to maintain narrative continuity and respond with a payload that matches the schema." ++
      ("\n" ++ ("Context:" ++ pyJsonDumps (.dict
        [("recent_history", .list (if h.isEmpty then [] else h.drop (h.length - 5))),
         ("latest_choice", c), ("previous_page", Writer.optIntToValue pp),
         ("page_number", Writer.optIntToValue pn)])))), ?_⟩
  simp only [Writer.buildModelPrompt, String.append_assoc]

/-- C3: For every inbound payload (and every model outcome and drawn seed),
the writer returns a body whose `page` equals `len(history) + 1` and whose
`history` is the inbound history with exactly one `{page, choice, story}`
entry appended, with `story` the body's own (string) story and `choices`
exactly 2 records; and an empty inbound payload yields an empty prior
history (hence `page = 1` and returned history of length 1) with the intro
instructions framing the prompt. -/
theorem writer_run_page_and_history (rb : Rb) (g : GState)
    (payload : List (String × Value)) (mo : Option (Option Value)) (seed : Nat) :
    (∃ story : String,
      dictGet (Writer.run rb g payload mo seed).body "story" = some (.str story) ∧
      dictGet (Writer.run rb g payload mo seed).body "page" =
        some (.int (((Writer.historyOf payload).length : Int) + 1)) ∧
      dictGet (Writer.run rb g payload mo seed).body "history" =
        some (.list ((Writer.historyOf payload) ++
          [.dict [("page", .int (((Writer.historyOf payload).length : Int) + 1)),
                  ("choice", Writer.choiceOf payload),
                  ("story", .str story)]])) ∧
      ∃ chs : List (String × String),
        dictGet (Writer.run rb g payload mo seed).body "choices" =
          some (Writer.choicesToValue chs) ∧ chs.length = 2) ∧
    (payload = [] →
      Writer.historyOf payload = [] ∧
      ∃ rest : String,
        (Writer.run rb g payload mo seed).prompt =
          Writer.INTRO_INSTRUCTIONS ++ rest) := by
  obtain ⟨story, chs, hs, hc, hlen⟩ := pagePayload_story_choices rb g mo seed
  have hsv : dictGetD (Writer.pagePayloadOf rb g mo seed) "story" Value.null =
      .str story := by
    unfold dictGetD
    rw [hs]
    rfl
  constructor
  · refine ⟨story, ?_, writerRun_body_page rb g payload mo seed, ?_, chs, ?_, hlen⟩
    · rw [writerRun_body_get rb g payload mo seed "story" (by decide) (by decide)
        (by decide) (by decide)]
      exact hs
    · rw [writerRun_body_history rb g payload mo seed, hsv]
    · rw [writerRun_body_get rb g payload mo seed "choices" (by decide) (by decide)
        (by decide) (by decide)]
      exact hc
  · intro hpay
    subst hpay
    refine ⟨rfl, ?_⟩
    obtain ⟨rest, hr⟩ := buildModelPrompt_prefix (Writer.historyOf [])
      (Writer.choiceOf []) Writer.INTRO_INSTRUCTIONS
      (Writer.previousPageOf (Writer.historyOf []))
      (some (((Writer.historyOf ([] : List (String × Value))).length : Int) + 1))
    exact ⟨rest, by rw [writerRun_prompt]; exact hr⟩

/-! ## C9: shape of the coerced panel layout -/

/-- C9 counterexample: `_normalize_panel_layout` returns an empty layout for
an absent/null input (violating "length in [1,5]"), and keeps a blank
plain-string entry as a panel whose description is empty (violating
"every entry has non-empty description"). -/
theorem normalizePanelLayout_counterexample :
    ¬ (1 ≤ (Illustrator.normalizePanelLayout Value.null).length) ∧
    ¬ (∀ p ∈ Illustrator.normalizePanelLayout (.list [.str " "]),
        p.description ≠ "") := by
  constructor
  · decide
  · intro h
    exact h ⟨1, "", "Spider-Man"⟩ (by decide) rfl

theorem panelFold_desc (xs : List Value) :
    ∀ acc : List Illustrator.Panel,
      (∀ x ∈ xs, ∃ kvs, x = Value.dict kvs) →
      (∀ p ∈ acc, p.description ≠ "") →
      ∀ p ∈ xs.foldl Illustrator.panelStep acc, p.description ≠ "" := by
  induction xs with
  | nil => intro acc _ hacc p hp; exact hacc p hp
  | cons x rest ih =>
    intro acc hxs hacc p hp
    simp only [List.foldl_cons] at hp
    refine ih _ (fun y hy => hxs y (List.mem_cons_of_mem _ hy)) ?_ p hp
    obtain ⟨kvs, rfl⟩ := hxs _ (List.mem_cons_self x rest)
    intro q hq
    simp only [Illustrator.panelStep] at hq
    split at hq
    · exact hacc q hq
    · rename_i hdesc
      rcases List.mem_append.mp hq with h | h
      · exact hacc q h
      · rw [List.mem_singleton.mp h]
        exact hdesc

/-- C9 (amended): the coerced panel layout always has at most 5 entries; a
non-list input yields the empty layout (the caller then substitutes the
fallback panels); and when the input is a list of mappings, every kept entry
has a non-empty description. (Plain-string entries are kept verbatim and may
carry an empty description; a no-usable-entry input yields length 0, not 1 —
per the counterexample.) -/
theorem normalizePanelLayout_shape (value : Value) :
    (Illustrator.normalizePanelLayout value).length ≤ 5 ∧
    (∀ xs, value = .list xs → (∀ x ∈ xs, ∃ kvs, x = Value.dict kvs) →
      ∀ p ∈ Illustrator.normalizePanelLayout value, p.description ≠ "") ∧
    ((∀ xs, value ≠ .list xs) → Illustrator.normalizePanelLayout value = []) := by
  refine ⟨?_, ?_, ?_⟩
  · cases value <;> simp [Illustrator.normalizePanelLayout, List.length_take]
  · rintro xs rfl hdicts p hp
    simp only [Illustrator.normalizePanelLayout] at hp
    exact panelFold_desc xs [] hdicts (by intro q hq; cases hq) p (List.mem_of_mem_take hp)
  · intro hne
    cases value with
    | list xs => exact absurd rfl (hne xs)
    | null => rfl
    | bool b => rfl
    | int n => rfl
    | str s => rfl
    | dict kvs => rfl

/-! ## C5: the illustrator's non-emptiness guarantees -/

theorem enumPanels_length (ls : List String) :
    ∀ i, (Illustrator.enumPanels i ls).length = ls.length := by
  induction ls with
  | nil => intro i; rfl
  | cons line rest ih =>
    intro i
    simp [Illustrator.enumPanels, ih]

theorem enumPanels_desc (ls : List String) :
    ∀ i p, p ∈ Illustrator.enumPanels i ls → p.description ∈ ls := by
  induction ls with
  | nil => intro i p hp; cases hp
  | cons line rest ih =>
    intro i p hp
    rcases List.mem_cons.mp hp with rfl | h
    · exact List.mem_cons_self _ _
    · exact List.mem_cons_of_mem _ (ih _ _ h)

theorem fallbackIllustration_panels (rb : Rb) (g : GState)
    (page : List (String × Value)) :
    ∃ panels : List Illustrator.Panel,
      dictGet (Illustrator.fallbackIllustration rb g page).1 "panel_layout" =
        some (.list (panels.map Illustrator.panelToValue)) ∧
      panels ≠ [] ∧ (∀ p ∈ panels, p.description ≠ "") ∧
      dictGet (Illustrator.fallbackIllustration rb g page).1 "sound_effects" =
        some (.list (["THWIP!", "KRAKOOM!", "VRRRMMM!"].map Value.str)) := by
  simp only [Illustrator.fallbackIllustration]
  set story := pyStr (pyOr (dictGetD page "story" .null)
    (.str "Spider-Man springs into action above Manhattan.")) with hstory
  set s0 := (Illustrator.pySentSplit story).filterMap (fun seg =>
    let t := pyStrip seg
    if t = "" then none else some t) with hs0
  set sentences := if s0.length < 3 then
      s0 ++ ["Spider-Man surveys the chaos below.",
             "A looming threat crackles with energy."]
    else s0 with hsent
  have hlen : 2 ≤ sentences.length := by
    rw [hsent]
    split <;> rename_i h
    · simp only [List.length_append, List.length_cons, List.length_nil]
      omega
    · omega
  have hne : ∀ t ∈ sentences, t ≠ "" := by
    intro t ht
    rw [hsent] at ht
    have hs0ne : ∀ t ∈ s0, t ≠ "" := by
      intro u hu
      rw [hs0, List.mem_filterMap] at hu
      obtain ⟨seg, _, hseg⟩ := hu
      simp only at hseg
      split at hseg
      · exact absurd hseg (by simp)
      · rename_i hguard
        obtain rfl := Option.some.inj hseg
        exact hguard
    split at ht
    · rcases List.mem_append.mp ht with h | h
      · exact hs0ne t h
      · rcases List.mem_cons.mp h with rfl | h'
        · decide
        · rcases List.mem_cons.mp h' with rfl | h''
          · decide
          · cases h''
    · exact hs0ne t ht
  refine ⟨Illustrator.enumPanels 1 (sentences.take 3), ?_, ?_, ?_, ?_⟩
  · rfl
  · intro hcontra
    have := enumPanels_length (sentences.take 3) 1
    rw [hcontra] at this
    simp only [List.length_nil, List.length_take] at this
    omega
  · intro p hp
    exact hne _ (List.mem_of_mem_take (enumPanels_desc _ _ _ hp))
  · simp [dictGet]


theorem sfxOf_map_ne_nil (o : Option Value) :
    ((Illustrator.sfxOf o).take 4).map
      (fun s => Value.str (pyTake (pyUpper (pyStr s)) 18)) ≠ [] := by
  match o with
  | none => simp [Illustrator.sfxOf, Illustrator.defaultSfx]
  | some .null => simp [Illustrator.sfxOf, Illustrator.defaultSfx]
  | some (.bool b) => simp [Illustrator.sfxOf, Illustrator.defaultSfx]
  | some (.int n) => simp [Illustrator.sfxOf, Illustrator.defaultSfx]
  | some (.str s) => simp [Illustrator.sfxOf, Illustrator.defaultSfx]
  | some (.dict kvs) => simp [Illustrator.sfxOf, Illustrator.defaultSfx]
  | some (.list l) =>
    simp only [Illustrator.sfxOf]
    split
    · simp [Illustrator.defaultSfx]
    · rename_i hl
      intro hcontra
      have h1 : ((l.take 4).map
          (fun s => Value.str (pyTake (pyUpper (pyStr s)) 18))).length = 0 := by
        rw [hcontra]
        rfl
      simp only [List.length_map, List.length_take] at h1
      have hlne : l ≠ [] := fun he => hl (by simp [he])
      have : 0 < l.length := List.length_pos.mpr hlne
      omega

theorem illuChain_gets (kvs : List (String × Value)) (pv av cv lv sv iv : Value)
    (c : Prop) [Decidable c] :
    dictGet (if c then
        dictSet (dictSet (dictSet (dictSet (dictSet kvs "panel_layout" pv)
          "art_direction" av) "color_palette" cv) "lighting" lv) "sound_effects" sv
      else dictSet (dictSet (dictSet (dictSet (dictSet (dictSet kvs "panel_layout" pv)
          "art_direction" av) "color_palette" cv) "lighting" lv) "sound_effects" sv)
          "image_prompt" iv) "panel_layout" = some pv ∧
    dictGet (if c then
        dictSet (dictSet (dictSet (dictSet (dictSet kvs "panel_layout" pv)
          "art_direction" av) "color_palette" cv) "lighting" lv) "sound_effects" sv
      else dictSet (dictSet (dictSet (dictSet (dictSet (dictSet kvs "panel_layout" pv)
          "art_direction" av) "color_palette" cv) "lighting" lv) "sound_effects" sv)
          "image_prompt" iv) "sound_effects" = some sv := by
  split
  · constructor
    · rw [dictGet_dictSet_ne _ _ _ _ (by decide), dictGet_dictSet_ne _ _ _ _ (by decide),
        dictGet_dictSet_ne _ _ _ _ (by decide), dictGet_dictSet_ne _ _ _ _ (by decide),
        dictGet_dictSet_self]
    · exact dictGet_dictSet_self _ _ _
  · constructor
    · rw [dictGet_dictSet_ne _ _ _ _ (by decide), dictGet_dictSet_ne _ _ _ _ (by decide),
        dictGet_dictSet_ne _ _ _ _ (by decide), dictGet_dictSet_ne _ _ _ _ (by decide),
        dictGet_dictSet_ne _ _ _ _ (by decide), dictGet_dictSet_self]
    · rw [dictGet_dictSet_ne _ _ _ _ (by decide), dictGet_dictSet_self]

theorem coerce_illu_nonempty (rb : Rb) (g : GState) (po : Option Value)
    (page : List (String × Value)) :
    ∃ (pl sfx : List Value),
      dictGet (Illustrator.coerceModelPayload rb g po page).1 "panel_layout" =
        some (.list pl) ∧ pl ≠ [] ∧
      dictGet (Illustrator.coerceModelPayload rb g po page).1 "sound_effects" =
        some (.list sfx) ∧ sfx ≠ [] := by
  have hfb : ∃ (pl sfx : List Value),
      dictGet (Illustrator.fallbackIllustration rb g page).1 "panel_layout" =
        some (.list pl) ∧ pl ≠ [] ∧
      dictGet (Illustrator.fallbackIllustration rb g page).1 "sound_effects" =
        some (.list sfx) ∧ sfx ≠ [] := by
    obtain ⟨panels, hpl, hne, _, hsfx⟩ := fallbackIllustration_panels rb g page
    refine ⟨panels.map Illustrator.panelToValue, _, hpl, ?_, hsfx, by simp⟩
    simpa using hne
  match po with
  | none => exact hfb
  | some .null => exact hfb
  | some (.bool b) => exact hfb
  | some (.int n) => exact hfb
  | some (.str s) => exact hfb
  | some (.list xs) => exact hfb
  | some (.dict kvs) =>
    simp only [Illustrator.coerceModelPayload]
    obtain ⟨panels, hpl, hne, _, _⟩ := fallbackIllustration_panels rb g page
    have hpanelsV : ∃ pl : List Value,
        (if Illustrator.normalizePanelLayout (dictGetD kvs "panel_layout" .null) = [] then
          dictGetD (Illustrator.fallbackIllustration rb g page).1 "panel_layout" Value.null
        else Value.list ((Illustrator.normalizePanelLayout
          (dictGetD kvs "panel_layout" .null)).map Illustrator.panelToValue)) =
          Value.list pl ∧ pl ≠ [] := by
      by_cases hpp : Illustrator.normalizePanelLayout (dictGetD kvs "panel_layout" .null) = []
      · refine ⟨panels.map Illustrator.panelToValue, ?_, by simpa using hne⟩
        rw [if_pos hpp]
        unfold dictGetD
        rw [hpl]
        rfl
      · refine ⟨(Illustrator.normalizePanelLayout
          (dictGetD kvs "panel_layout" .null)).map Illustrator.panelToValue, ?_, ?_⟩
        · rw [if_neg hpp]
        · simpa using hpp
    obtain ⟨pl, hplv, hplne⟩ := hpanelsV
    rw [hplv]
    exact ⟨pl, _, (illuChain_gets _ _ _ _ _ _ _ _).1, hplne,
      (illuChain_gets _ _ _ _ _ _ _ _).2, sfxOf_map_ne_nil _⟩

theorem fallbackIllu_nonempty (rb : Rb) (g : GState) (page : List (String × Value)) :
    ∃ (pl sfx : List Value),
      dictGet (Illustrator.fallbackIllustration rb g page).1 "panel_layout" =
        some (.list pl) ∧ pl ≠ [] ∧
      dictGet (Illustrator.fallbackIllustration rb g page).1 "sound_effects" =
        some (.list sfx) ∧ sfx ≠ [] := by
  obtain ⟨panels, hpl, hne, _, hsfx⟩ := fallbackIllustration_panels rb g page
  refine ⟨panels.map Illustrator.panelToValue, _, hpl, ?_, hsfx, by simp⟩
  simpa using hne

/-- C5 counterexample: on the parse-success path, a model payload whose
`panel_layout` is the list `[" "]` yields an illustration whose only panel
has an empty description — so "at least one panel with non-empty
description" does not hold on every return path (the layout itself is still
non-empty). -/
theorem illustrator_blank_panel_counterexample :
    ∃ ill : List (String × Value),
      Illustrator.run (fun _ _ _ => 0) (0, 0) [("story", .str "x")]
        (some (some (.dict [("panel_layout", .list [.str " "])]))) =
        .dict [("page", .dict [("story", .str "x")]), ("illustration", .dict ill)] ∧
      dictGet ill "panel_layout" =
        some (.list [Illustrator.panelToValue ⟨1, "", "Spider-Man"⟩]) ∧
      (Illustrator.panelToValue ⟨1, "", "Spider-Man"⟩ : Value) =
        .dict [("panel", .int 1), ("description", .str ""), ("focus", .str "Spider-Man")] := by
  exact ⟨_, rfl, rfl, rfl⟩

/-- C5 (amended): on every return path the illustrator absorbs failures and
emits a valid `{"page": …, "illustration": …}` body whose `panel_layout` and
`sound_effects` are non-empty lists; and when the external generative call
raises (on a non-empty page payload), the fallback illustration is returned
and then every panel additionally has a non-empty description. (On the
parse-success path a panel's description can be empty, per the
counterexample.) -/
theorem illustrator_nonempty_guarantees (rb : Rb) (g : GState)
    (page : List (String × Value)) (mo : Option (Option Value)) :
    (∃ (ill : List (String × Value)) (pl sfx : List Value),
      Illustrator.run rb g page mo =
        .dict [("page", .dict page), ("illustration", .dict ill)] ∧
      dictGet ill "panel_layout" = some (.list pl) ∧ pl ≠ [] ∧
      dictGet ill "sound_effects" = some (.list sfx) ∧ sfx ≠ []) ∧
    (mo = none → page ≠ [] →
      Illustrator.run rb g page mo =
        .dict [("page", .dict page),
               ("illustration", .dict (Illustrator.fallbackIllustration rb g page).1)] ∧
      ∃ panels : List Illustrator.Panel,
        dictGet (Illustrator.fallbackIllustration rb g page).1 "panel_layout" =
          some (.list (panels.map Illustrator.panelToValue)) ∧
        panels ≠ [] ∧ ∀ p ∈ panels, p.description ≠ "") := by
  constructor
  · unfold Illustrator.run
    split
    · obtain ⟨pl, sfx, h1, h2, h3, h4⟩ := fallbackIllu_nonempty rb g []
      exact ⟨_, pl, sfx, rfl, h1, h2, h3, h4⟩
    · cases mo with
      | none =>
        obtain ⟨pl, sfx, h1, h2, h3, h4⟩ := fallbackIllu_nonempty rb g page
        exact ⟨_, pl, sfx, rfl, h1, h2, h3, h4⟩
      | some po =>
        obtain ⟨pl, sfx, h1, h2, h3, h4⟩ := coerce_illu_nonempty rb g po page
        exact ⟨_, pl, sfx, rfl, h1, h2, h3, h4⟩
  · rintro rfl hpage
    have hine : ¬(page.isEmpty = true) := by
      intro h
      exact hpage (List.isEmpty_iff.mp h)
    constructor
    · unfold Illustrator.run
      rw [if_neg hine]
    · obtain ⟨panels, hpl, hne, hdesc, _⟩ := fallbackIllustration_panels rb g page
      exact ⟨panels, hpl, hne, hdesc⟩

/-! ## C8: fallback draw order -/

/-- Modelled from the spec: §4.2's prescribed draw order for one run's
fallback synthesis — a single generator seeded once with the run's seed,
drawing villain, location, complication, palette and lighting as draws 1–5
of the same sequence (so palette and lighting are the 4th and 5th draws). -/
def specDrawOrder (rb : Rb) (seed : Nat) : String × String × String × String × String :=
  let g0 := pySeed seed
  let villain := (pyChoice rb g0 Writer.FALLBACK_VILLAINS).1
  let g1 := (pyChoice rb g0 Writer.FALLBACK_VILLAINS).2
  let location := (pyChoice rb g1 Writer.FALLBACK_LOCATIONS).1
  let g2 := (pyChoice rb g1 Writer.FALLBACK_LOCATIONS).2
  let complication := (pyChoice rb g2 Writer.FALLBACK_COMPLICATIONS).1
  let g3 := (pyChoice rb g2 Writer.FALLBACK_COMPLICATIONS).2
  let palette := (pyChoice rb g3 Illustrator.paletteChoices).1
  let g4 := (pyChoice rb g3 Illustrator.paletteChoices).2
  let lighting := (pyChoice rb g4 Illustrator.lightingChoices).1
  (villain, location, complication, palette, lighting)

/-- C8 counterexample: with a draw environment whose 4th draw differs from
its 1st, the palette the illustrator's fallback actually picks (the first
draw after its own re-seed with the stored seed) differs from the palette
the spec's single-sequence order would pick as the 4th draw — so palette and
lighting are not draws 4 and 5 of the sequence begun for the villain draw. -/
theorem fallback_draw_order_counterexample :
    dictGet (Illustrator.fallbackIllustration (fun _ k _ => if 3 ≤ k then 1 else 0)
      (0, 0) [("seed", .int 0), ("story", .str "x")]).1 "color_palette" =
      some (.str "vibrant reds, electric blues, neon greens") ∧
    (specDrawOrder (fun _ k _ => if 3 ≤ k then 1 else 0) 0).2.2.2.1 =
      "noir shadows with crimson highlights" ∧
    ("vibrant reds, electric blues, neon greens" : String) ≠
      "noir shadows with crimson highlights" := by
  refine ⟨rfl, rfl, by decide⟩

/-- C8 (amended): the two fallback synthesizers each re-seed the global
generator with the run's seed: the writer's fallback draws villain, location
and complication as draws 1–3 of a sequence seeded with the seed, and the
illustrator's fallback re-seeds with the same stored seed and draws the
palette and the lighting as draws 1 and 2 of a fresh sequence — not as draws
4 and 5 of the writer's sequence. -/
theorem fallback_draw_positions (rb : Rb) (g g' : GState) (seed : Nat)
    (rest : List (String × Value)) :
    (Writer.fallbackStory rb g seed).1.story =
      "Spider-Man swings above " ++
        Writer.FALLBACK_LOCATIONS.getD (rb seed 1 6 % 6) "" ++
        " when he spots " ++ Writer.FALLBACK_VILLAINS.getD (rb seed 0 6 % 6) "" ++
        " orchestrating " ++ Writer.FALLBACK_COMPLICATIONS.getD (rb seed 2 6 % 6) "" ++
        ". With sirens blaring below, Spidey cracks a joke to calm the nerves—even his own—before he dives into danger." ∧
    dictGet (Illustrator.fallbackIllustration rb g'
        (("seed", Value.int (seed : Int)) :: rest)).1 "color_palette" =
      some (.str (Illustrator.paletteChoices.getD (rb seed 0 3 % 3) "")) ∧
    dictGet (Illustrator.fallbackIllustration rb g'
        (("seed", Value.int (seed : Int)) :: rest)).1 "lighting" =
      some (.str (Illustrator.lightingChoices.getD (rb seed 1 3 % 3) "")) := by
  refine ⟨rfl, ?_, ?_⟩ <;> rfl

/-! ## C2: field-wise backfilling in the writer's coercion -/

/-- Shallow projection of a dialogues value to (character, line) pairs
(used to compare dialogue lists decidably). -/
def dlgPairsOf : Value → List (String × String)
  | .list xs => xs.map (fun x =>
      match x with
      | .dict kvs =>
        ((match dictGet kvs "character" with | some (.str c) => c | _ => ""),
         (match dictGet kvs "line" with | some (.str l) => l | _ => ""))
      | _ => ("", ""))
  | _ => []

/-- Shallow projection of a choices value to (id, label) pairs. -/
def chPairsOf : Value → List (String × String)
  | .list xs => xs.map (fun x =>
      match x with
      | .dict kvs =>
        ((match dictGet kvs "id" with | some (.str c) => c | _ => ""),
         (match dictGet kvs "label" with | some (.str l) => l | _ => ""))
      | _ => ("", ""))
  | _ => []

/-- C2 counterexample: a parse with usable `dialogues` (`[A: "hi"]`) and
usable `choices` (ids `a`, `b`) but no `story` does NOT keep them: after
coercion both fields hold the fallback narrative's content (`dict.update`
overwrote them), not the parsed ones. -/
theorem coerce_missing_story_counterexample :
    dlgPairsOf (dictGetD (Writer.coerceModelPayload (fun _ _ _ => 0) (0, 0)
        (some (.dict [("dialogues", .list [.dict [("character", .str "A"), ("line", .str "hi")]]),
                      ("choices", .list [.dict [("id", .str "a"), ("label", .str "go")],
                                         .dict [("id", .str "b"), ("label", .str "stay")]])]))
        0).1 "dialogues" .null) =
      [("Spider-Man", "Okay, bad guy roll call—who ordered the reality meltdown combo?"),
       ("The Lizard", "Spider-Man, you're just in time to watch New York unravel!")] ∧
    chPairsOf (dictGetD (Writer.coerceModelPayload (fun _ _ _ => 0) (0, 0)
        (some (.dict [("dialogues", .list [.dict [("character", .str "A"), ("line", .str "hi")]]),
                      ("choices", .list [.dict [("id", .str "a"), ("label", .str "go")],
                                         .dict [("id", .str "b"), ("label", .str "stay")]])]))
        0).1 "choices" .null) =
      [("dive-straight-in", "Dive straight into the fray and confront the villain."),
       ("secure-civilians", "Secure the civilians before taking on the threat.")] ∧
    ([("Spider-Man", "Okay, bad guy roll call—who ordered the reality meltdown combo?"),
      ("The Lizard", "Spider-Man, you're just in time to watch New York unravel!")] ≠
      ([("A", "hi")] : List (String × String))) ∧
    ([("dive-straight-in", "Dive straight into the fray and confront the villain."),
      ("secure-civilians", "Secure the civilians before taking on the threat.")] ≠
      ([("a", "go"), ("b", "stay")] : List (String × String))) := by
  exact ⟨rfl, rfl, by decide, by decide⟩

theorem dictUpdate_fb_dialogues (kvs : List (String × Value)) (fb : Writer.FbStory) :
    dictGet (dictUpdate kvs (Writer.fbToDict fb)) "dialogues" =
      some (Writer.dialoguesToValue fb.dialogues) := by
  rw [show Writer.fbToDict fb =
    [("story", Value.str fb.story), ("dialogues", Writer.dialoguesToValue fb.dialogues),
     ("choices", Writer.choicesToValue fb.choices)] from rfl]
  rw [dictUpdate_three]
  rw [dictGet_dictSet_ne _ _ _ _ (by decide), dictGet_dictSet_self]

theorem dictUpdate_fb_choices (kvs : List (String × Value)) (fb : Writer.FbStory) :
    dictGet (dictUpdate kvs (Writer.fbToDict fb)) "choices" =
      some (Writer.choicesToValue fb.choices) := by
  rw [show Writer.fbToDict fb =
    [("story", Value.str fb.story), ("dialogues", Writer.dialoguesToValue fb.dialogues),
     ("choices", Writer.choicesToValue fb.choices)] from rfl]
  rw [dictUpdate_three]
  exact dictGet_dictSet_self _ _ _

theorem dictUpdate_fb_other (kvs : List (String × Value)) (fb : Writer.FbStory)
    (k : String) (h1 : k ≠ "story") (h2 : k ≠ "dialogues") (h3 : k ≠ "choices") :
    dictGet (dictUpdate kvs (Writer.fbToDict fb)) k = dictGet kvs k := by
  rw [show Writer.fbToDict fb =
    [("story", Value.str fb.story), ("dialogues", Writer.dialoguesToValue fb.dialogues),
     ("choices", Writer.choicesToValue fb.choices)] from rfl]
  rw [dictUpdate_three]
  rw [dictGet_dictSet_ne _ _ _ _ h3, dictGet_dictSet_ne _ _ _ _ h2,
    dictGet_dictSet_ne _ _ _ _ h1]

/-- C2 (amended): when the top-level parse succeeds as an object but `story`
is missing (or blank), `dict.update` replaces the whole narrative triple:
`story`, `dialogues` and `choices` all come from the fallback synthesis (then
re-normalized), and the parsed `dialogues`/`choices` are discarded; every
other parsed key is preserved. Only a failed top-level parse replaces the
whole payload; when `story` is present, `dialogues` and `choices` are
normalized field-by-field as the claim describes. -/
theorem coerce_missing_story_backfill (rb : Rb) (g : GState)
    (kvs : List (String × Value)) (seed : Nat)
    (hstory : pyStrip (pyStr (dictGetD kvs "story" (.str ""))) = "") :
    dictGet (Writer.coerceModelPayload rb g (some (.dict kvs)) seed).1 "story" =
      some (.str (Writer.fallbackStory rb g seed).1.story) ∧
    dictGet (Writer.coerceModelPayload rb g (some (.dict kvs)) seed).1 "dialogues" =
      some (Writer.dialoguesToValue (Writer.normalizeDialogues
        (Writer.dialoguesToValue (Writer.fallbackStory rb g seed).1.dialogues))) ∧
    dictGet (Writer.coerceModelPayload rb g (some (.dict kvs)) seed).1 "choices" =
      some (Writer.choicesToValue (Writer.normalizeChoices rb
        (Writer.fallbackStory rb g seed).2
        (Writer.choicesToValue (Writer.fallbackStory rb g seed).1.choices) seed).1) ∧
    ∀ k, k ≠ "story" → k ≠ "dialogues" → k ≠ "choices" →
      dictGet (Writer.coerceModelPayload rb g (some (.dict kvs)) seed).1 k =
        dictGet kvs k := by
  simp only [Writer.coerceModelPayload, hstory, if_pos rfl, ite_true]
  have hsv : dictGetD (dictUpdate kvs
      (Writer.fbToDict (Writer.fallbackStory rb g seed).1)) "story" Value.null =
      .str (Writer.fallbackStory rb g seed).1.story := by
    unfold dictGetD
    rw [dictUpdate_fb_story]
    rfl
  have hdv : ∀ sv : Value, dictGetD (dictSet (dictUpdate kvs
      (Writer.fbToDict (Writer.fallbackStory rb g seed).1)) "story" sv)
      "dialogues" Value.null =
      Writer.dialoguesToValue (Writer.fallbackStory rb g seed).1.dialogues := by
    intro sv
    unfold dictGetD
    rw [dictGet_dictSet_ne _ _ _ _ (by decide), dictUpdate_fb_dialogues]
    rfl
  have hcv : ∀ (sv dv : Value), dictGetD (dictSet (dictSet (dictUpdate kvs
      (Writer.fbToDict (Writer.fallbackStory rb g seed).1)) "story" sv)
      "dialogues" dv) "choices" Value.null =
      Writer.choicesToValue (Writer.fallbackStory rb g seed).1.choices := by
    intro sv dv
    unfold dictGetD
    rw [dictGet_dictSet_ne _ _ _ _ (by decide), dictGet_dictSet_ne _ _ _ _ (by decide),
      dictUpdate_fb_choices]
    rfl
  rw [hsv, hdv, hcv]
  refine ⟨?_, ?_, ?_, ?_⟩
  · rw [dictGet_dictSet_ne _ _ _ _ (by decide), dictGet_dictSet_ne _ _ _ _ (by decide),
      dictGet_dictSet_self]
  · rw [dictGet_dictSet_ne _ _ _ _ (by decide), dictGet_dictSet_self]
  · exact dictGet_dictSet_self _ _ _
  · intro k h1 h2 h3
    rw [dictGet_dictSet_ne _ _ _ _ h3, dictGet_dictSet_ne _ _ _ _ h2,
      dictGet_dictSet_ne _ _ _ _ h1, dictUpdate_fb_other _ _ _ h1 h2 h3]

/-- Witness for C2's amended theorem at the empty parsed object. -/
theorem coerce_missing_story_backfill_witness :
    dictGet (Writer.coerceModelPayload (fun _ _ _ => 0) (0, 0)
        (some (.dict [])) 0).1 "story" =
      some (.str (Writer.fallbackStory (fun _ _ _ => 0) (0, 0) 0).1.story) :=
  (coerce_missing_story_backfill (fun _ _ _ => 0) (0, 0) [] 0 rfl).1

/-! ## C6: the image stage's placeholder fallback -/

theorem sanitize_lookup_ne (k k₂ : String) (v : Value) (rest : List (String × Value))
    (h : k₂ ≠ k) :
    (ImageGen.sanitizeMetadata ((k, v) :: rest)).lookup k₂ =
      (ImageGen.sanitizeMetadata rest).lookup k₂ := by
  have hbeq : (k₂ == k) = false := by
    simp only [beq_eq_false_iff_ne, ne_eq]
    exact h
  cases v with
  | null => rfl
  | bool b =>
    simp only [ImageGen.sanitizeMetadata]
    split
    · rfl
    · simp [List.lookup, hbeq]
  | int n =>
    simp only [ImageGen.sanitizeMetadata]
    split
    · rfl
    · simp [List.lookup, hbeq]
  | str s =>
    simp only [ImageGen.sanitizeMetadata]
    split
    · rfl
    · simp [List.lookup, hbeq]
  | list xs =>
    simp only [ImageGen.sanitizeMetadata]
    split
    · rfl
    · simp [List.lookup, hbeq]
  | dict kvs =>
    simp only [ImageGen.sanitizeMetadata]
    split
    · rfl
    · simp [List.lookup, hbeq]

theorem sanitize_lookup_bool_true (k : String) (rest : List (String × Value)) :
    (ImageGen.sanitizeMetadata ((k, .bool true) :: rest)).lookup k = some "True" := by
  have hval : pyStrip (pyReplace (pyReplace (pyStr (.bool true)) "\r" " ") "\n" " ") =
      "True" := rfl
  simp only [ImageGen.sanitizeMetadata, hval]
  split
  · rename_i hcontra
    exact absurd hcontra (by decide)
  · simp [List.lookup]

/-- C6: when the rendering response contains no extractable inline binary
(the candidate-part shape, the `data`-wrapper shape and the `image`-wrapper
shape all fail, in that priority order), the image stage returns the fixed
1×1 placeholder PNG bytes with MIME type `image/png`, and its sanitized
metadata marks `fallback` as `"True"`. -/
theorem image_no_binary_fallback (payload : List (String × Value))
    (bd : String → Option (List Nat)) (enc : String → List Nat)
    (result : ImageGen.GResult)
    (hex : ImageGen.extractSearch bd enc result = none) :
    (ImageGen.run payload (.ok result) bd enc).bytes = ImageGen.FALLBACK_PIXEL ∧
    (ImageGen.run payload (.ok result) bd enc).mime = "image/png" ∧
    (ImageGen.run payload (.ok result) bd enc).metadata.lookup "fallback" =
      some "True" := by
  have hext : ImageGen.extractImageFromResponse bd enc result =
      (ImageGen.FALLBACK_PIXEL, "image/png") := by
    unfold ImageGen.extractImageFromResponse
    rw [hex]
    rfl
  have hbeq : (ImageGen.FALLBACK_PIXEL == ImageGen.FALLBACK_PIXEL) = true := by
    simp
  simp only [ImageGen.run, hext, if_pos rfl, ite_true, hbeq]
  refine ⟨trivial, trivial, ?_⟩
  rw [sanitize_lookup_ne _ _ _ _ (by decide), sanitize_lookup_ne _ _ _ _ (by decide),
    sanitize_lookup_ne _ _ _ _ (by decide), sanitize_lookup_ne _ _ _ _ (by decide),
    sanitize_lookup_bool_true]

/-- Witness for C6 at a concrete empty response (no candidates, no content):
nothing is extractable, so the placeholder pixel is emitted. -/
theorem image_no_binary_fallback_witness :
    (ImageGen.run [] (.ok ⟨none, none⟩) (fun _ => none) (fun _ => [])).bytes =
      ImageGen.FALLBACK_PIXEL :=
  (image_no_binary_fallback [] (fun _ => none) (fun _ => []) ⟨none, none⟩ rfl).1
